import Mathlib

/-!
# Block generation task of the voxel engine

A shallow embedding of `src/engine/generate_block_task.cpp`
(`zylann::voxel::GenerateBlockTask`) and proofs about it.

Conventions of the embedding

* `std::shared_ptr<VoxelBufferInternal>` is an index into `World.buffers`, the heap of
  shared voxel buffers; `nullptr` is `none`. `make_shared_instance` appends a cell, so the
  pointer it returns was never valid before.
* The multipass map (`std::shared_ptr<VoxelGeneratorMultipass::Map>`) is shared between
  tasks and lives in `World.maps`; the generator holds a reference to it.
* Calls that leave the task (engine queues, the volume callback, the tracker, the
  generator, the modifier stack, the log, the locks) are recorded in the `World`.
* A failed `CRASH_COND` / `ZN_ASSERT`, and the dereference of a null or dangling pointer,
  end the call with `Except.error`; `ERR_FAIL_COND` and `ZN_ASSERT_RETURN` print an error
  and return.
* `int` arithmetic wraps to 32 bits (`wrap32`). A shift `x << b` is defined for `b < 32` only;
  statements about the value of the origin or of the extent carry `lod_index < 32`.
-/

namespace zylann.voxel

/-! ## Integer vectors -/

/-- Two's complement wrap of an integer to the 32 bit `int` range. -/
def wrap32 (i : Int) : Int := (i + 2 ^ 31) % 2 ^ 32 - 2 ^ 31

/-- Integer 3-vector (`Vector3i`), components are 32 bit `int`. -/
structure Vector3i where
  x : Int
  y : Int
  z : Int
deriving DecidableEq, Repr, Inhabited

namespace Vector3i

/-- Component-wise shift, `Vector3i::operator<<(int)`, on 32 bit `int` components. The C++
shift `x << b` has a defined value only for a count `b < 32`: there it is the 32 bit wrap of
`x * 2 ^ b`. From 32 on the source has no defined value; the embedding stays total by taking
the count modulo 32, and every statement about the value of a shift carries the bound
`b < 32`. -/
def shl (v : Vector3i) (b : Nat) : Vector3i :=
  if b < 32 then
    ⟨wrap32 (v.x * 2 ^ b), wrap32 (v.y * 2 ^ b), wrap32 (v.z * 2 ^ b)⟩
  else
    ⟨wrap32 (v.x * 2 ^ (b % 32)), wrap32 (v.y * 2 ^ (b % 32)), wrap32 (v.z * 2 ^ (b % 32))⟩

/-- Component-wise product with a scalar, `operator*(Vector3i, int)`. -/
def mul (v : Vector3i) (k : Int) : Vector3i :=
  ⟨wrap32 (v.x * k), wrap32 (v.y * k), wrap32 (v.z * k)⟩

/-- Component-wise sum, `operator+(Vector3i, Vector3i)`. -/
def add (a b : Vector3i) : Vector3i :=
  ⟨wrap32 (a.x + b.x), wrap32 (a.y + b.y), wrap32 (a.z + b.z)⟩

end Vector3i

/-- The vector with all components equal, `Vector3iUtil::create(int)`. -/
def Vector3iUtil.create (xyz : Int) : Vector3i := ⟨xyz, xyz, xyz⟩

/-- A real vector (`Vector3`) obtained from an integer vector by `to_vec3` or by the implicit
conversion; the embedding keeps the integer vector it was converted from. -/
structure Vector3 where
  of_vec3i : Vector3i
deriving DecidableEq, Repr

/-- Conversion `to_vec3(Vector3i)`. -/
def to_vec3 (v : Vector3i) : Vector3 := ⟨v⟩

/-- Axis-aligned box of reals, `AABB(position, size)`. -/
structure AABB where
  position : Vector3
  size : Vector3
deriving DecidableEq, Repr

/-- Integer box given by origin and size, `Box3i(pos, size)`. -/
structure Box3i where
  pos : Vector3i
  size : Vector3i
deriving DecidableEq, Repr

/-- Integer box given by its two corners, `BoxBounds3i`. -/
structure BoxBounds3i where
  min_pos : Vector3i
  max_pos : Vector3i
deriving DecidableEq, Repr

/-- The unit box at a position, `BoxBounds3i::from_position`. -/
def BoxBounds3i.from_position (pos : Vector3i) : BoxBounds3i :=
  ⟨pos, pos.add ⟨1, 1, 1⟩⟩

/-! ## Floats -/

/-- A `float` value as far as comparisons see it: not-a-number, the two infinities, or a
finite rational. -/
inductive FloatVal where
  | nan
  | neg_inf
  | fin (q : Rat)
  | pos_inf
deriving DecidableEq

/-- The comparison `a > b` of two floats; false as soon as one side is not a number. -/
def FloatVal.gt : FloatVal → FloatVal → Bool
  | .nan, _ => false
  | _, .nan => false
  | .pos_inf, .pos_inf => false
  | .pos_inf, _ => true
  | .fin _, .neg_inf => true
  | .fin a, .fin b => decide (b < a)
  | .fin _, .pos_inf => false
  | .neg_inf, _ => false

/-! ## Voxel buffers -/

/-- Modelled from the spec: the dense voxel buffer (`VoxelBufferInternal`, declared in
`storage/voxel_buffer_internal.h`, not part of the sources at hand). The storage format is
outside the specification; a buffer is its size and its voxel content. -/
structure VoxelBufferInternal where
  size : Vector3i
  content : List Int
deriving DecidableEq, Repr

namespace VoxelBufferInternal

/-- Modelled from the spec: a default-constructed buffer, what `make_shared_instance`
allocates: no size, no content. -/
def empty : VoxelBufferInternal := ⟨⟨0, 0, 0⟩, []⟩

/-- Size query `get_size()`. -/
def get_size (b : VoxelBufferInternal) : Vector3i := b.size

/-- Modelled from the spec: `create(size)` (re)allocates the buffer to the given size with
default content. -/
def create (_b : VoxelBufferInternal) (size : Vector3i) : VoxelBufferInternal :=
  ⟨size, []⟩

/-- Modelled from the spec: `dst.copy_from(src)` copies the content of `src` into `dst`
("copy the block's buffer into the task's own buffer"); the size of `dst` is the one it was
created with. -/
def copy_from (dst src : VoxelBufferInternal) : VoxelBufferInternal :=
  { dst with content := src.content }

/-- Modelled from the spec: `src.duplicate_to(dst, include_metadata)` makes `dst` a duplicate
of `src` ("duplicate the voxel buffer"): same size, same content. -/
def duplicate_to (src _dst : VoxelBufferInternal) (_include_metadata : Bool) :
    VoxelBufferInternal :=
  ⟨src.size, src.content⟩

end VoxelBufferInternal

/-- A shared pointer to a voxel buffer: an index into `World.buffers`. -/
abbrev BufferPtr := Nat

/-- The address of a task object (`this`, `IThreadedTask *`). -/
abbrev TaskPtr := Nat

/-- A shared pointer to a multipass map: a key of `World.maps`. -/
abbrev MapPtr := Nat

/-- Handle of a volume registered in the engine (`VolumeID`). -/
abbrev VolumeID := Nat

/-- A shared pointer to an `AsyncDependencyTracker`. -/
abbrev TrackerPtr := Nat

/-! ## Generators, streams, modifiers -/

/-- Result of `VoxelGenerator::generate_block`. -/
structure VoxelGenerator.Result where
  max_lod_hint : Nat
deriving DecidableEq, Repr

/-- The multipass part of a generator (`VoxelGeneratorMultipass`): its pass count and its
shared map. -/
structure VoxelGeneratorMultipass where
  pass_count : Int
  map : MapPtr
deriving DecidableEq, Repr

/-- A voxel generator as the task uses it. `multipass` is the outcome of the cast to
`Ref<VoxelGeneratorMultipass>`; `get_block_rendering_shader` may be null; the two generation
entry points take the buffer, the origin in voxels and the LOD of the query and return the
buffer they wrote. -/
structure VoxelGenerator where
  multipass : Option VoxelGeneratorMultipass
  get_block_rendering_shader : Option Nat
  get_block_rendering_shader_parameters : Nat
  get_block_rendering_shader_outputs : Nat
  generate_block : VoxelBufferInternal → Vector3i → Nat → VoxelBufferInternal × VoxelGenerator.Result
  generate_broad_block : VoxelBufferInternal → Vector3i → Nat → VoxelBufferInternal × Bool

/-- A voxel stream as the task uses it: only its "save generator output" setting. -/
structure VoxelStream where
  get_save_generator_output : Bool
deriving DecidableEq, Repr

/-- The record shared by the tasks of one volume: generator, stream (both may be null) and
the validity flag. The task only reads it, so the embedding holds it by value. -/
structure StreamingDependency where
  generator : Option VoxelGenerator
  stream : Option VoxelStream
  valid : Bool

/-- Kind of shader a modifier provides, `VoxelModifier::ShaderData::Type`. -/
inductive ShaderDataType where
  | TYPE_DETAIL
  | TYPE_BLOCK
deriving DecidableEq, Repr

/-- Shader data of one modifier, `VoxelModifier::ShaderData`. -/
structure VoxelModifier.ShaderData where
  shader_rids : ShaderDataType → Nat
  params : Nat

/-- The modifier stack of a volume (`VoxelModifierStack`). -/
structure VoxelModifierStack where
  apply : VoxelBufferInternal → AABB → VoxelBufferInternal
  apply_for_gpu_rendering : AABB → ShaderDataType → List VoxelModifier.ShaderData

/-- The volume data a task may carry, used for its modifiers only (`VoxelData`). -/
structure VoxelData where
  get_modifiers : VoxelModifierStack

/-! ## Priority -/

/-- A task priority (`TaskPriority`). -/
abbrev TaskPriority := Nat

/-- Viewer data of a task (`PriorityDependency`). `evaluate lod band` gives the priority and
the squared distance to the closest viewer (the out-parameter of the source). -/
structure PriorityDependency where
  evaluate : Nat → Nat → TaskPriority × FloatVal
  drop_distance_squared : FloatVal

/-! ## Multipass map -/

/-- One entry of the multipass map, `VoxelGeneratorMultipass::Block`. -/
structure Block where
  voxels : VoxelBufferInternal
  final_pending_task : Option TaskPtr
  pending_subpass_tasks_mask : Nat
  subpass_index : Int
deriving DecidableEq, Repr

/-- The multipass map, `VoxelGeneratorMultipass::Map`: `blocks.find(pos)` is `none` when
there is no entry, `some none` when the entry holds a null pointer. -/
structure Map where
  blocks : Vector3i → Option (Option Block)

/-! ## Engine -/

/-- Status of a task invocation, `ThreadedTaskContext::Status`. -/
inductive Status where
  | STATUS_COMPLETE
  | STATUS_POSTPONED
  | STATUS_TAKEN_OUT
deriving DecidableEq, Repr

/-- Context the executor passes to `run`, `ThreadedTaskContext`. -/
structure ThreadedTaskContext where
  thread_index : Nat
  status : Status
deriving DecidableEq, Repr

/-- Classification of a delivered block, `VoxelEngine::BlockDataOutput::Type`. -/
inductive BlockDataOutput.Type where
  | TYPE_LOADED
  | TYPE_GENERATED
  | TYPE_SAVED
deriving DecidableEq, Repr

/-- The record handed to the volume, `VoxelEngine::BlockDataOutput`. -/
structure BlockDataOutput where
  type : BlockDataOutput.Type
  voxels : Option BufferPtr
  position : Vector3i
  lod_index : Nat
  dropped : Bool
  max_lod_hint : Nat
  initial_load : Bool
deriving DecidableEq, Repr

/-- Callbacks of a registered volume, `VoxelEngine::VolumeCallbacks`:
the data output callback (may be null) and its user data. -/
structure VolumeCallbacks where
  data_output_callback : Option Nat
  data : Nat
deriving DecidableEq, Repr

/-- One invocation `callback(data, o)` of a data output callback. -/
structure DataOutputCall where
  callback : Nat
  data : Nat
  output : BlockDataOutput
deriving DecidableEq, Repr

/-- A call received by a dependency tracker. -/
inductive TrackerCall where
  | abort (tracker : TrackerPtr)
  | post_complete (tracker : TrackerPtr)
deriving DecidableEq, Repr

/-- The save task built by `run_stream_saving_and_finish`, `SaveBlockDataTask`. -/
structure SaveBlockDataTask where
  volume_id : VolumeID
  position : Vector3i
  lod_index : Nat
  block_size : Nat
  voxels : Option BufferPtr
  stream_dependency : StreamingDependency
  tracker : Option TrackerPtr

/-- Modifier entry of a GPU task, `GenerateBlockGPUTask::ModifierData`. -/
structure GenerateBlockGPUTask.ModifierData where
  shader_rid : Nat
  params : Nat
deriving DecidableEq, Repr

/-- The GPU task built by `run_gpu_task`, `GenerateBlockGPUTask`. -/
structure GenerateBlockGPUTask where
  boxes_to_generate : List Box3i
  generator_shader : Option Nat
  generator_shader_params : Nat
  generator_shader_outputs : Nat
  lod_index : Nat
  origin_in_voxels : Vector3i
  consumer_task : Option TaskPtr
  modifiers : List GenerateBlockGPUTask.ModifierData
deriving DecidableEq, Repr

/-- Raw output of the GPU task, `GenerateBlockGPUTaskResult`. -/
structure GenerateBlockGPUTaskResult where
  box : Box3i
  bytes : List Nat
deriving DecidableEq, Repr

/-- A line written to the log. -/
inductive LogEntry where
  /-- Failed `ERR_FAIL_COND(generator.is_null())`. -/
  | error_generator_is_null
  /-- Failed `ZN_ASSERT_RETURN(multipass_generator->get_pass_count() > 0)`. -/
  | error_pass_count
  /-- Failed `ERR_FAIL_COND(generator_shader == nullptr)`. -/
  | error_generator_shader_is_null
  /-- Failed `ERR_FAIL_COND(callbacks.data_output_callback == nullptr)`. -/
  | error_data_output_callback_is_null
  /-- Verbose line "Requesting save of generator output for block ... lod ...". -/
  | verbose_requesting_save (position : Vector3i) (lod_index : Nat)
  /-- Verbose line saying the response came back but the volume was not found. -/
  | verbose_volume_not_found
deriving DecidableEq, Repr

/-- A call of the generator. -/
inductive GeneratorCall where
  | generate_block (voxels : BufferPtr) (origin_in_voxels : Vector3i) (lod : Nat)
  | generate_broad_block (voxels : BufferPtr) (origin_in_voxels : Vector3i) (lod : Nat)
deriving DecidableEq, Repr

/-- A call of the modifier stack. -/
inductive ModifierCall where
  | apply (voxels : BufferPtr) (aabb : AABB)
  | apply_for_gpu_rendering (aabb : AABB) (type : ShaderDataType)
deriving DecidableEq, Repr

/-- Steps of `run` on the shared multipass map, in program order. -/
inductive Event where
  /-- Constructor of `VoxelSpatialLockRead`. -/
  | spatial_lock_read (map : MapPtr) (box : BoxBounds3i)
  /-- Destructor of `VoxelSpatialLockRead`. -/
  | spatial_unlock_read (map : MapPtr) (box : BoxBounds3i)
  /-- Constructor of `MutexLock`. -/
  | mutex_lock (map : MapPtr)
  /-- Destructor of `MutexLock`. -/
  | mutex_unlock (map : MapPtr)
  /-- The lookup `map->blocks.find(position)`. -/
  | blocks_find (map : MapPtr) (position : Vector3i)
  /-- A read of `subpass_index` or `pending_subpass_tasks_mask` of the block. -/
  | block_inspect (map : MapPtr) (position : Vector3i)
  /-- The write `block->final_pending_task = this`. -/
  | set_final_pending_task (map : MapPtr) (position : Vector3i) (task : TaskPtr)
  /-- The copy `voxels->copy_from(block->voxels)`. -/
  | copy_from_block (map : MapPtr) (position : Vector3i) (dst : BufferPtr)
  /-- Constructor of `VoxelSpatialLockWrite`, the write lock of the spatial lock; this task
  never takes it, the passes that write blocks do. -/
  | spatial_lock_write (map : MapPtr) (box : BoxBounds3i)
  /-- Destructor of `VoxelSpatialLockWrite`. -/
  | spatial_unlock_write (map : MapPtr) (box : BoxBounds3i)
deriving DecidableEq, Repr

/-- Why a call did not return. -/
inductive Fault where
  /-- A failed `CRASH_COND` or `ZN_ASSERT`. -/
  | crash
  /-- Dereference of a null pointer. -/
  | null_dereference
deriving DecidableEq, Repr

/-- Everything outside the task that the task reads or writes: the engine singleton
(registered volumes and their callbacks, the I/O and GPU queues), the heap of shared voxel
buffers, the shared multipass maps, and the record of the calls made. -/
structure World where
  volumes : VolumeID → Option VolumeCallbacks
  async_io_tasks : List SaveBlockDataTask
  gpu_tasks : List GenerateBlockGPUTask
  buffers : List VoxelBufferInternal
  maps : MapPtr → Map
  data_output_calls : List DataOutputCall
  tracker_calls : List TrackerCall
  generator_calls : List GeneratorCall
  modifier_calls : List ModifierCall
  log : List LogEntry
  events : List Event

namespace World

/-- Allocation `make_shared_instance<VoxelBufferInternal>()`: a new default-constructed buffer
at the end of the heap; returns its pointer. -/
def make_shared_instance (w : World) : BufferPtr × World :=
  (w.buffers.length, { w with buffers := w.buffers ++ [VoxelBufferInternal.empty] })

/-- Dereference of a buffer pointer for reading. -/
def read_buffer (w : World) : Option BufferPtr → Except Fault VoxelBufferInternal
  | none => .error Fault.null_dereference
  | some p =>
    match w.buffers[p]? with
    | none => .error Fault.null_dereference
    | some b => .ok b

/-- Store through a buffer pointer. -/
def write_buffer (w : World) (p : BufferPtr) (b : VoxelBufferInternal) : World :=
  { w with buffers := w.buffers.set p b }

/-- Update in place of the buffer behind a pointer (a member call such as
`voxels->create(...)`). -/
def modify_buffer (w : World) (p : BufferPtr) (f : VoxelBufferInternal → VoxelBufferInternal) :
    Except Fault World :=
  match w.read_buffer (some p) with
  | .ok b => .ok (w.write_buffer p (f b))
  | .error e => .error e

/-- Registration test `VoxelEngine::is_volume_valid`. -/
def is_volume_valid (w : World) (volume_id : VolumeID) : Bool :=
  (w.volumes volume_id).isSome

/-- Lookup `VoxelEngine::get_volume_callbacks` of a registered volume. -/
def get_volume_callbacks (w : World) (volume_id : VolumeID) : VolumeCallbacks :=
  match w.volumes volume_id with
  | some callbacks => callbacks
  | none => ⟨none, 0⟩

/-- Queueing `VoxelEngine::push_async_io_task`. -/
def push_async_io_task (w : World) (task : SaveBlockDataTask) : World :=
  { w with async_io_tasks := w.async_io_tasks ++ [task] }

/-- Queueing `VoxelEngine::push_gpu_task`. -/
def push_gpu_task (w : World) (task : GenerateBlockGPUTask) : World :=
  { w with gpu_tasks := w.gpu_tasks ++ [task] }

/-- Append a line to the log. -/
def print (w : World) (e : LogEntry) : World :=
  { w with log := w.log ++ [e] }

/-- Append a step to the record of map accesses. -/
def emit (w : World) (e : Event) : World :=
  { w with events := w.events ++ [e] }

/-- Store a block back into the entry of a map that points to it. -/
def write_block (w : World) (map : MapPtr) (position : Vector3i) (b : Block) : World :=
  let m : Map := ⟨Function.update (w.maps map).blocks position (some (some b))⟩
  { w with maps := Function.update w.maps map m }

end World

/-- Parts of the repository that `generate_block_task.cpp` uses and that are declared
elsewhere: the static helpers `VoxelGeneratorMultipass::get_subpass_count_from_pass_count`
and `GenerateBlockGPUTaskResult::convert_to_voxel_buffer`, and the constant
`constants::TASK_PRIORITY_GENERATE_BAND2`. They are parameters of the embedding. -/
structure Externals where
  get_subpass_count_from_pass_count : Int → Int
  convert_to_voxel_buffer : List GenerateBlockGPUTaskResult → VoxelBufferInternal → VoxelBufferInternal
  TASK_PRIORITY_GENERATE_BAND2 : Nat

/-- The task (`GenerateBlockTask`). `self_ptr` is the address of the object (`this`);
`voxels`, `data` and `tracker` are shared pointers and may be null. -/
structure GenerateBlockTask where
  self_ptr : TaskPtr
  voxels : Option BufferPtr
  position : Vector3i
  volume_id : VolumeID
  lod_index : Nat
  block_size : Nat
  drop_beyond_max_distance : Bool
  use_gpu : Bool
  priority_dependency : PriorityDependency
  stream_dependency : StreamingDependency
  data : Option VoxelData
  tracker : Option TrackerPtr
  has_run : Bool
  too_far : Bool
  max_lod_hint : Nat
  _stage : Nat
  _gpu_generation_results : List GenerateBlockGPUTaskResult

namespace GenerateBlockTask

/-- Embedding of `GenerateBlockTask::run_stream_saving_and_finish` (lines 220-245). -/
def run_stream_saving_and_finish (self : GenerateBlockTask) (w : World) :
    Except Fault (GenerateBlockTask × World) :=
  if self.stream_dependency.valid then
    match self.stream_dependency.stream with
    | some stream =>
      if stream.get_save_generator_output then
        let w := w.print (.verbose_requesting_save self.position self.lod_index)
        let (voxels_copy, w) := w.make_shared_instance
        match w.read_buffer self.voxels, w.read_buffer (some voxels_copy) with
        | .ok src, .ok dst =>
          let w := w.write_buffer voxels_copy (src.duplicate_to dst true)
          let save_task : SaveBlockDataTask :=
            { volume_id := self.volume_id, position := self.position,
              lod_index := self.lod_index, block_size := self.block_size,
              voxels := some voxels_copy, stream_dependency := self.stream_dependency,
              tracker := none }
          let w := w.push_async_io_task save_task
          .ok ({ self with has_run := true }, w)
        | .error f, _ => .error f
        | _, .error f => .error f
      else
        .ok ({ self with has_run := true }, w)
    | none => .ok ({ self with has_run := true }, w)
  else
    .ok ({ self with has_run := true }, w)

/-- Embedding of `GenerateBlockTask::run_gpu_task` (lines 148-193). -/
def run_gpu_task (self : GenerateBlockTask) (ctx : ThreadedTaskContext) (w : World) :
    Except Fault (GenerateBlockTask × ThreadedTaskContext × World) :=
  match self.stream_dependency.generator with
  | none => .ok (self, ctx, w.print .error_generator_is_null)
  | some generator =>
    match generator.get_block_rendering_shader with
    | none => .ok (self, ctx, w.print .error_generator_shader_is_null)
    | some generator_shader =>
      let origin_in_voxels := (self.position.shl self.lod_index).mul self.block_size
      match self.voxels with
      | none => .error Fault.crash
      | some voxels =>
        match w.read_buffer (some voxels) with
        | .error f => .error f
        | .ok buffer =>
          let (buffer, broad) := generator.generate_broad_block buffer origin_in_voxels self.lod_index
          let w := w.write_buffer voxels buffer
          let call : GeneratorCall := .generate_broad_block voxels origin_in_voxels self.lod_index
          let w := { w with generator_calls := w.generator_calls ++ [call] }
          if broad then
            .ok ({ self with _stage := 2 }, ctx, w)
          else
            let resolution := Vector3iUtil.create self.block_size
            let gpu_task : GenerateBlockGPUTask :=
              { boxes_to_generate := [Box3i.mk ⟨0, 0, 0⟩ resolution],
                generator_shader := some generator_shader,
                generator_shader_params := generator.get_block_rendering_shader_parameters,
                generator_shader_outputs := generator.get_block_rendering_shader_outputs,
                lod_index := self.lod_index,
                origin_in_voxels := origin_in_voxels,
                consumer_task := some self.self_ptr,
                modifiers := [] }
            let (gpu_task, w) :=
              match self.data with
              | some data =>
                let aabb_voxels : AABB :=
                  ⟨to_vec3 origin_in_voxels, to_vec3 (resolution.shl self.lod_index)⟩
                let modifiers_shader_data :=
                  data.get_modifiers.apply_for_gpu_rendering aabb_voxels .TYPE_BLOCK
                let pushed : List GenerateBlockGPUTask.ModifierData :=
                  modifiers_shader_data.map
                    (fun (d : VoxelModifier.ShaderData) => ⟨d.shader_rids .TYPE_BLOCK, d.params⟩)
                let call : ModifierCall := .apply_for_gpu_rendering aabb_voxels .TYPE_BLOCK
                ({ gpu_task with modifiers := gpu_task.modifiers ++ pushed },
                 { w with modifier_calls := w.modifier_calls ++ [call] })
              | none => (gpu_task, w)
            let ctx := { ctx with status := Status.STATUS_TAKEN_OUT }
            .ok (self, ctx, w.push_gpu_task gpu_task)

/-- Embedding of `GenerateBlockTask::set_gpu_results` (lines 195-198). -/
def set_gpu_results (self : GenerateBlockTask) (results : List GenerateBlockGPUTaskResult) :
    GenerateBlockTask :=
  { self with _gpu_generation_results := results, _stage := 1 }

/-- Embedding of `GenerateBlockTask::run_gpu_conversion` (lines 200-203). -/
def run_gpu_conversion (ext : Externals) (self : GenerateBlockTask) (w : World) :
    Except Fault (GenerateBlockTask × World) :=
  match self.voxels, w.read_buffer self.voxels with
  | some voxels, .ok buffer =>
    .ok ({ self with _stage := 2 },
      w.write_buffer voxels (ext.convert_to_voxel_buffer self._gpu_generation_results buffer))
  | _, .error f => .error f
  | none, _ => .error Fault.null_dereference

/-- Embedding of `GenerateBlockTask::run_cpu_generation` (lines 205-218). -/
def run_cpu_generation (self : GenerateBlockTask) (w : World) :
    Except Fault (GenerateBlockTask × World) :=
  let origin_in_voxels := (self.position.shl self.lod_index).mul self.block_size
  match self.stream_dependency.generator, self.voxels, w.read_buffer self.voxels with
  | some generator, some voxels, .ok buffer =>
    let (buffer, result) := generator.generate_block buffer origin_in_voxels self.lod_index
    let w := w.write_buffer voxels buffer
    let call : GeneratorCall := .generate_block voxels origin_in_voxels self.lod_index
    let w := { w with generator_calls := w.generator_calls ++ [call] }
    let self := { self with max_lod_hint := result.max_lod_hint }
    match self.data with
    | some data =>
      let aabb : AABB := ⟨to_vec3 origin_in_voxels, to_vec3 (buffer.get_size.shl self.lod_index)⟩
      let w := w.write_buffer voxels (data.get_modifiers.apply buffer aabb)
      let w := { w with modifier_calls := w.modifier_calls ++ [.apply voxels aabb] }
      .ok (self, w)
    | none => .ok (self, w)
  | _, _, .error f => .error f
  | none, _, _ => .error Fault.null_dereference
  | _, none, _ => .error Fault.null_dereference

/-- Embedding of `GenerateBlockTask::run` (lines 34-146). The stream dependency is held by
value, so the `CRASH_COND(stream_dependency == nullptr)` of line 37 cannot fire. -/
def run (ext : Externals) (self : GenerateBlockTask) (ctx : ThreadedTaskContext) (w : World) :
    Except Fault (GenerateBlockTask × ThreadedTaskContext × World) :=
  match self.stream_dependency.generator with
  | none => .ok (self, ctx, w.print .error_generator_is_null)
  | some generator =>
    match generator.multipass with
    | some multipass_generator =>
      if ¬ (multipass_generator.pass_count > 0) then
        .ok (self, ctx, w.print .error_pass_count)
      else
        let map := multipass_generator.map
        let final_subpass_index :=
          ext.get_subpass_count_from_pass_count multipass_generator.pass_count - 1
        let box := BoxBounds3i.from_position self.position
        let w := w.emit (.spatial_lock_read map box)
        let w := w.emit (.mutex_lock map)
        let w := w.emit (.blocks_find map self.position)
        match (w.maps map).blocks self.position with
        | none =>
          -- Drop, for some reason it wasn't available
          let w := w.emit (.mutex_unlock map)
          let w := w.emit (.spatial_unlock_read map box)
          .ok (self, ctx, w)
        | some block =>
          let w := w.emit (.mutex_unlock map)
          match block with
          | none => .error Fault.crash
          | some block =>
            let w := w.emit (.block_inspect map self.position)
            if block.subpass_index ≠ final_subpass_index then
              -- The block isn't finished
              if block.pending_subpass_tasks_mask ≠ 0 then
                -- Some tasks are working on the chunk, so we may try querying it again later.
                let ctx := { ctx with status := Status.STATUS_TAKEN_OUT }
                let w := w.write_block map self.position
                  { block with final_pending_task := some self.self_ptr }
                let w := w.emit (.set_final_pending_task map self.position self.self_ptr)
                let w := w.emit (.spatial_unlock_read map box)
                .ok (self, ctx, w)
              else
                -- No tasks working on it. That's a drop.
                let w := w.emit (.spatial_unlock_read map box)
                .ok (self, ctx, w)
            else do
              -- The block is ready
              let (voxels, w) := w.make_shared_instance
              let self := { self with voxels := some voxels }
              let w ← w.modify_buffer voxels (fun b => b.create block.voxels.get_size)
              let w ← w.modify_buffer voxels (fun b => b.copy_from block.voxels)
              let w := w.emit (.copy_from_block map self.position voxels)
              let (self, w) ← self.run_stream_saving_and_finish w
              let w := w.emit (.spatial_unlock_read map box)
              pure (self, ctx, w)
    | none => do
      let (self, w) ←
        match self.voxels with
        | none =>
          let (voxels, w) := w.make_shared_instance
          let size : Vector3i := ⟨self.block_size, self.block_size, self.block_size⟩
          (w.modify_buffer voxels (fun b => b.create size)).map
            (fun w => ({ self with voxels := some voxels }, w))
        | some _ => pure (self, w)
      if self.use_gpu then
        let (self, ctx, w) ←
          if self._stage = 0 then self.run_gpu_task ctx w else pure (self, ctx, w)
        let (self, w) ←
          if self._stage = 1 then self.run_gpu_conversion ext w else pure (self, w)
        let (self, w) ←
          if self._stage = 2 then self.run_stream_saving_and_finish w else pure (self, w)
        pure (self, ctx, w)
      else
        let (self, w) ← self.run_cpu_generation w
        let (self, w) ← self.run_stream_saving_and_finish w
        pure (self, ctx, w)

/-- Embedding of `GenerateBlockTask::get_priority` (lines 247-253): the priority, and the task
with its `too_far` flag updated. -/
def get_priority (ext : Externals) (self : GenerateBlockTask) : TaskPriority × GenerateBlockTask :=
  let (p, closest_viewer_distance_sq) :=
    self.priority_dependency.evaluate self.lod_index ext.TASK_PRIORITY_GENERATE_BAND2
  let too_far := self.drop_beyond_max_distance &&
    closest_viewer_distance_sq.gt self.priority_dependency.drop_distance_squared
  (p, { self with too_far := too_far })

/-- Embedding of `GenerateBlockTask::is_cancelled` (lines 255-257). -/
def is_cancelled (self : GenerateBlockTask) : Bool :=
  !self.stream_dependency.valid || self.too_far

/-- Embedding of `GenerateBlockTask::apply_result` (lines 259-306). `delivery` is the block of
lines 262-294: `Except.error` is the early return of the `ERR_FAIL_COND` of line 285,
`Except.ok` carries the local `aborted` on to the tracker. -/
def apply_result (self : GenerateBlockTask) (w : World) : World :=
  let aborted := true
  let delivery : Except World (Bool × World) :=
    if w.is_volume_valid self.volume_id then
      if self.stream_dependency.valid then
        let stream := self.stream_dependency.stream
        let type : BlockDataOutput.Type :=
          match stream with
          | some stream =>
            if stream.get_save_generator_output then .TYPE_LOADED else .TYPE_GENERATED
          | none => .TYPE_GENERATED
        let o : BlockDataOutput :=
          { voxels := self.voxels, position := self.position, lod_index := self.lod_index,
            dropped := !self.has_run, type := type, max_lod_hint := self.max_lod_hint,
            initial_load := false }
        let callbacks := w.get_volume_callbacks self.volume_id
        match callbacks.data_output_callback with
        | none => .error (w.print .error_data_output_callback_is_null)
        | some callback =>
          let call : DataOutputCall := ⟨callback, callbacks.data, o⟩
          let w := { w with data_output_calls := w.data_output_calls ++ [call] }
          let aborted := !self.has_run
          .ok (aborted, w)
      else
        .ok (aborted, w)
    else
      -- This can happen if the user removes the volume while requests are still about to return
      .ok (aborted, w.print .verbose_volume_not_found)
  match delivery with
  | .error w => w
  | .ok (aborted, w) =>
    match self.tracker with
    | some tracker =>
      if aborted then
        { w with tracker_calls := w.tracker_calls ++ [TrackerCall.abort tracker] }
      else
        { w with tracker_calls := w.tracker_calls ++ [TrackerCall.post_complete tracker] }
    | none => w

/-- The condition of lines 221 and 226 under which `run_stream_saving_and_finish` requests a
save: the dependency is valid, the stream is set and it saves generator output. -/
def saves_generator_output (self : GenerateBlockTask) : Bool :=
  self.stream_dependency.valid &&
    match self.stream_dependency.stream with
    | some stream => stream.get_save_generator_output
    | none => false

/-- The condition of line 274 under which `apply_result` classifies the block as loaded: the
stream is set and it saves generator output. -/
def stream_saves_generator_output (self : GenerateBlockTask) : Bool :=
  match self.stream_dependency.stream with
  | some stream => stream.get_save_generator_output
  | none => false

/-- The task is on the multipass path of `run` with generator `mg`: the generator is set, casts
to a multipass generator and has a positive pass count (lines 39, 42 and 43). -/
def on_multipass_path (self : GenerateBlockTask) (mg : VoxelGeneratorMultipass) : Prop :=
  ∃ generator, self.stream_dependency.generator = some generator ∧
    generator.multipass = some mg ∧ 0 < mg.pass_count

/-- Index of the final subpass as `run` computes it (lines 45-46). -/
def final_subpass_index (ext : Externals) (mg : VoxelGeneratorMultipass) : Int :=
  ext.get_subpass_count_from_pass_count mg.pass_count - 1

/-- The steps `run` records when the lookup finds no entry (lines 49-57). -/
def events_absent (map : MapPtr) (position : Vector3i) : List Event :=
  [.spatial_lock_read map (BoxBounds3i.from_position position),
   .mutex_lock map, .blocks_find map position, .mutex_unlock map,
   .spatial_unlock_read map (BoxBounds3i.from_position position)]

/-- The steps `run` records when the block is unfinished and no producer runs (lines 49-74). -/
def events_stalled (map : MapPtr) (position : Vector3i) : List Event :=
  [.spatial_lock_read map (BoxBounds3i.from_position position),
   .mutex_lock map, .blocks_find map position, .mutex_unlock map,
   .block_inspect map position,
   .spatial_unlock_read map (BoxBounds3i.from_position position)]

/-- The steps `run` records when it registers the task on an unfinished block (lines 49-70). -/
def events_pending (map : MapPtr) (position : Vector3i) (task : TaskPtr) : List Event :=
  [.spatial_lock_read map (BoxBounds3i.from_position position),
   .mutex_lock map, .blocks_find map position, .mutex_unlock map,
   .block_inspect map position,
   .set_final_pending_task map position task,
   .spatial_unlock_read map (BoxBounds3i.from_position position)]

/-- The steps `run` records on a final block up to the copy of its buffer (lines 49-82). -/
def events_copy (map : MapPtr) (position : Vector3i) (dst : BufferPtr) : List Event :=
  [.spatial_lock_read map (BoxBounds3i.from_position position),
   .mutex_lock map, .blocks_find map position, .mutex_unlock map,
   .block_inspect map position,
   .copy_from_block map position dst]

/-- The world `run` hands to `run_stream_saving_and_finish` on a final block (line 84): the
buffer of the block sits in a new cell at the end of the heap, the steps so far are recorded. -/
def world_after_copy (w : World) (map : MapPtr) (position : Vector3i) (b : Block) : World :=
  { w with buffers := w.buffers ++ [b.voxels],
           events := w.events ++ events_copy map position w.buffers.length }

/-! ### The direct path -/

/-- The task is on the direct (single-pass) path of `run` with generator `g`: the generator is
set and does not cast to a multipass generator (lines 39 and 42). -/
def on_direct_path (self : GenerateBlockTask) (g : VoxelGenerator) : Prop :=
  self.stream_dependency.generator = some g ∧ g.multipass = none

/-- The origin in voxels that `run_gpu_task` (line 158) and `run_cpu_generation` (line 206)
compute. -/
def origin_in_voxels (self : GenerateBlockTask) : Vector3i :=
  (self.position.shl self.lod_index).mul self.block_size

/-- Lines 127-130 of `run`: allocate the cube buffer when the task has none. -/
def ensure_voxels (self : GenerateBlockTask) (w : World) :
    Except Fault (GenerateBlockTask × World) :=
  match self.voxels with
  | none =>
    let (voxels, w) := w.make_shared_instance
    let size : Vector3i := ⟨self.block_size, self.block_size, self.block_size⟩
    (w.modify_buffer voxels (fun b => b.create size)).map
      (fun w => ({ self with voxels := some voxels }, w))
  | some _ => pure (self, w)

/-- Lines 132-145 of `run`: the stages of the GPU path, or the CPU generation. -/
def run_direct (ext : Externals) (self : GenerateBlockTask) (ctx : ThreadedTaskContext)
    (w : World) : Except Fault (GenerateBlockTask × ThreadedTaskContext × World) := do
  if self.use_gpu then
    let (self, ctx, w) ←
      if self._stage = 0 then self.run_gpu_task ctx w else pure (self, ctx, w)
    let (self, w) ←
      if self._stage = 1 then self.run_gpu_conversion ext w else pure (self, w)
    let (self, w) ←
      if self._stage = 2 then self.run_stream_saving_and_finish w else pure (self, w)
    pure (self, ctx, w)
  else
    let (self, w) ← self.run_cpu_generation w
    let (self, w) ← self.run_stream_saving_and_finish w
    pure (self, ctx, w)

/-- The task's buffer pointer is null or live: `p` and `buf` are the pointer and the buffer the
direct path of `run` works on after lines 127-130, `w0` is the world then (with the new cube
at the end of the heap when the task had no buffer). -/
def buffer_ready (self : GenerateBlockTask) (w : World) (p : BufferPtr)
    (buf : VoxelBufferInternal) (w0 : World) : Prop :=
  (self.voxels = none ∧ p = w.buffers.length ∧
    buf = ⟨⟨self.block_size, self.block_size, self.block_size⟩, []⟩ ∧
    w0 = { w with buffers := w.buffers ++ [buf] }) ∨
  (self.voxels = some p ∧ w.buffers[p]? = some buf ∧ w0 = w)

/-- The world after the broad-block call of `run_gpu_task` (lines 161-162). -/
def world_after_broad (self : GenerateBlockTask) (g : VoxelGenerator) (p : BufferPtr)
    (buf : VoxelBufferInternal) (w0 : World) : World :=
  { w0 with
    buffers := w0.buffers.set p (g.generate_broad_block buf self.origin_in_voxels self.lod_index).1,
    generator_calls := w0.generator_calls ++
                         [.generate_broad_block p self.origin_in_voxels self.lod_index] }

/-- The box the GPU path gives to the modifiers (line 179). -/
def gpu_modifier_aabb (self : GenerateBlockTask) : AABB :=
  ⟨to_vec3 self.origin_in_voxels,
   to_vec3 ((Vector3iUtil.create self.block_size).shl self.lod_index)⟩

/-- The GPU task `run_gpu_task` builds (lines 167-187). -/
def gpu_task_built (self : GenerateBlockTask) (g : VoxelGenerator) (shader : Nat) :
    GenerateBlockGPUTask :=
  { boxes_to_generate := [Box3i.mk ⟨0, 0, 0⟩ (Vector3iUtil.create self.block_size)],
    generator_shader := some shader,
    generator_shader_params := g.get_block_rendering_shader_parameters,
    generator_shader_outputs := g.get_block_rendering_shader_outputs,
    lod_index := self.lod_index,
    origin_in_voxels := self.origin_in_voxels,
    consumer_task := some self.self_ptr,
    modifiers :=
      match self.data with
      | some data =>
        (data.get_modifiers.apply_for_gpu_rendering self.gpu_modifier_aabb .TYPE_BLOCK).map
          (fun (d : VoxelModifier.ShaderData) => ⟨d.shader_rids .TYPE_BLOCK, d.params⟩)
      | none => [] }

/-- The modifier calls `run_gpu_task` records when it builds the GPU task (line 182). -/
def gpu_modifier_calls (self : GenerateBlockTask) : List ModifierCall :=
  match self.data with
  | some _ => [.apply_for_gpu_rendering self.gpu_modifier_aabb .TYPE_BLOCK]
  | none => []

/-- The save task `run_stream_saving_and_finish` builds (lines 237-238) around the copy
`voxels_copy`. -/
def save_task_built (self : GenerateBlockTask) (voxels_copy : BufferPtr) : SaveBlockDataTask :=
  { volume_id := self.volume_id, position := self.position, lod_index := self.lod_index,
    block_size := self.block_size, voxels := some voxels_copy,
    stream_dependency := self.stream_dependency, tracker := none }

/-- The world `run_stream_saving_and_finish` leaves when the task's buffer is `buf`: unchanged
when no save is requested, else with the verbose line, the duplicate in a new cell and the
save task queued. -/
def world_after_finish (self : GenerateBlockTask) (w : World) (buf : VoxelBufferInternal) :
    World :=
  if self.saves_generator_output then
    { w with log := w.log ++ [.verbose_requesting_save self.position self.lod_index],
             buffers := w.buffers ++ [buf],
             async_io_tasks := w.async_io_tasks ++ [self.save_task_built w.buffers.length] }
  else w

/-- The box the CPU path gives to the modifiers (line 216) for a generated buffer. -/
def cpu_modifier_aabb (self : GenerateBlockTask) (generated : VoxelBufferInternal) : AABB :=
  ⟨to_vec3 self.origin_in_voxels, to_vec3 (generated.get_size.shl self.lod_index)⟩

/-- The max-LOD hint `generate_block` returns on the buffer `buf` (line 212). -/
def cpu_max_lod_hint (self : GenerateBlockTask) (g : VoxelGenerator)
    (buf : VoxelBufferInternal) : Nat :=
  (g.generate_block buf self.origin_in_voxels self.lod_index).2.max_lod_hint

/-- The world after `run_cpu_generation` on the buffer `buf` behind `p` (lines 210-217). -/
def world_after_cpu (self : GenerateBlockTask) (g : VoxelGenerator) (p : BufferPtr)
    (buf : VoxelBufferInternal) (w0 : World) : World :=
  let generated := (g.generate_block buf self.origin_in_voxels self.lod_index).1
  match self.data with
  | some data =>
    { w0 with
      buffers := w0.buffers.set p
        (data.get_modifiers.apply generated (self.cpu_modifier_aabb generated)),
      generator_calls := w0.generator_calls ++
        [.generate_block p self.origin_in_voxels self.lod_index],
      modifier_calls := w0.modifier_calls ++ [.apply p (self.cpu_modifier_aabb generated)] }
  | none =>
    { w0 with
      buffers := w0.buffers.set p generated,
      generator_calls := w0.generator_calls ++
        [.generate_block p self.origin_in_voxels self.lod_index] }

/-- The state in which `run` can be called: the buffer pointer of the task is null or points
into the heap, and the entry of the task's position in the map of its multipass generator, if
there is one, is not a null pointer ("Null not allowed", line 61). -/
def well_formed (self : GenerateBlockTask) (w : World) : Prop :=
  (∀ p, self.voxels = some p → p < w.buffers.length) ∧
  (∀ g mg, self.stream_dependency.generator = some g → g.multipass = some mg →
    (w.maps mg.map).blocks self.position ≠ some none)

/-- Outcome of an invocation of `run`: the task finished. -/
def completed (t' : GenerateBlockTask) (ctx' : ThreadedTaskContext) : Prop :=
  t'.has_run = true ∧ ctx'.status ≠ Status.STATUS_TAKEN_OUT

/-- Outcome of an invocation of `run`: the task is taken out, to be resumed later. -/
def suspended (t' : GenerateBlockTask) (ctx' : ThreadedTaskContext) : Prop :=
  ctx'.status = Status.STATUS_TAKEN_OUT ∧ t'.has_run = false

/-- Outcome of an invocation of `run` from the world `w`: the task neither finished nor was
taken out, it is registered on no block and no GPU task was submitted. -/
def dropped (w : World) (t' : GenerateBlockTask) (ctx' : ThreadedTaskContext) (w' : World) :
    Prop :=
  t'.has_run = false ∧ ctx'.status ≠ Status.STATUS_TAKEN_OUT ∧ w'.maps = w.maps ∧
    w'.gpu_tasks = w.gpu_tasks

/-- The origin in voxels as a product: on each axis `position * 2 ^ lod_index * block_size`,
in 32 bit arithmetic. It is what lines 158 and 206 compute when `lod_index < 32`. -/
def origin_product (self : GenerateBlockTask) : Vector3i :=
  ⟨wrap32 (self.position.x * 2 ^ self.lod_index * self.block_size),
   wrap32 (self.position.y * 2 ^ self.lod_index * self.block_size),
   wrap32 (self.position.z * 2 ^ self.lod_index * self.block_size)⟩

/-- The extent of the block in voxels: on each axis `block_size * 2 ^ lod_index`, in 32 bit
arithmetic. It is what lines 179 and 216 compute on the cube when `lod_index < 32`. -/
def extent_product (self : GenerateBlockTask) : Vector3i :=
  ⟨wrap32 (self.block_size * 2 ^ self.lod_index),
   wrap32 (self.block_size * 2 ^ self.lod_index),
   wrap32 (self.block_size * 2 ^ self.lod_index)⟩

end GenerateBlockTask

/-- The waiting consumer registered on the block at a position of a map, if there is one. -/
def World.final_pending_task (w : World) (map : MapPtr) (position : Vector3i) : Option TaskPtr :=
  match (w.maps map).blocks position with
  | some (some b) => b.final_pending_task
  | _ => none

/-! ## Locks held along a record of steps -/

/-- The locks a record of steps has acquired and not yet released: read and write locks of
the spatial lock, by map and box, and map mutexes. -/
structure LocksHeld where
  read : List (MapPtr × BoxBounds3i)
  write : List (MapPtr × BoxBounds3i)
  mutex : List MapPtr
deriving DecidableEq, Repr

namespace LocksHeld

/-- No lock held. -/
def none : LocksHeld := ⟨[], [], []⟩

/-- Effect of one step on the locks held. -/
def step (s : LocksHeld) : Event → LocksHeld
  | .spatial_lock_read map box => { s with read := (map, box) :: s.read }
  | .spatial_unlock_read map box => { s with read := s.read.erase (map, box) }
  | .spatial_lock_write map box => { s with write := (map, box) :: s.write }
  | .spatial_unlock_write map box => { s with write := s.write.erase (map, box) }
  | .mutex_lock map => { s with mutex := map :: s.mutex }
  | .mutex_unlock map => { s with mutex := s.mutex.erase map }
  | _ => s

end LocksHeld

/-- The locks held after a record of steps that starts with the locks `s`. -/
def locks_held (s : LocksHeld) (events : List Event) : LocksHeld :=
  events.foldl LocksHeld.step s

/-- Every step of the record satisfies `ok` in the locks held when it happens. -/
def steps_hold (ok : LocksHeld → Event → Bool) : LocksHeld → List Event → Bool
  | _, [] => true
  | s, e :: rest => ok s e && steps_hold ok (s.step e) rest

/-- A write of `final_pending_task` happens under the write lock of the box at its position. -/
def write_under_write_lock (s : LocksHeld) : Event → Bool
  | .set_final_pending_task map position _ =>
    s.write.contains (map, BoxBounds3i.from_position position)
  | _ => true

/-- A write of `final_pending_task` happens under the read lock of the box at its position,
with no write lock and no mutex held. -/
def write_under_read_lock_only (s : LocksHeld) : Event → Bool
  | .set_final_pending_task map position _ =>
    s.read.contains (map, BoxBounds3i.from_position position) && s.write.isEmpty &&
      s.mutex.isEmpty
  | _ => true

/-- The lock discipline of the multipass path, step by step: the mutex is taken while the read
lock of some box of the map is held and no mutex is; the lookup happens under the mutex; the
block is inspected, registered on and copied from with the mutex released and the read lock
of the box at its position held; locks are released only when held, and the read lock is
released with the mutex released. -/
def lock_discipline_step (s : LocksHeld) : Event → Bool
  | .spatial_lock_read _ _ => s.mutex.isEmpty
  | .mutex_lock map => s.mutex.isEmpty && s.read.any (fun l => l.1 == map)
  | .blocks_find map _ => s.mutex.contains map
  | .mutex_unlock map => s.mutex.contains map
  | .block_inspect map position =>
    s.mutex.isEmpty && s.read.contains (map, BoxBounds3i.from_position position)
  | .set_final_pending_task map position _ =>
    s.mutex.isEmpty && s.read.contains (map, BoxBounds3i.from_position position)
  | .copy_from_block map position _ =>
    s.mutex.isEmpty && s.read.contains (map, BoxBounds3i.from_position position)
  | .spatial_unlock_read map box => s.mutex.isEmpty && s.read.contains (map, box)
  | .spatial_lock_write _ _ => false
  | .spatial_unlock_write _ _ => false

/-- The lock discipline of the multipass path holds along the record, and no lock is held at
its end. -/
def lock_discipline (events : List Event) : Bool :=
  steps_hold lock_discipline_step LocksHeld.none events &&
    decide (locks_held LocksHeld.none events = LocksHeld.none)

/-! ## Concrete tasks and worlds -/

namespace Examples

/-- Helpers of the repository with the subpass count `2 * pass_count - 1`, a GPU conversion
that overwrites the content, and band 10. -/
def ext : Externals :=
  ⟨fun pass_count => 2 * pass_count - 1, fun results b => ⟨b.size, results.map (fun _ => 1)⟩, 10⟩

/-- A multipass generator with two passes (three subpasses, final subpass index 2), map 0. -/
def multipass_generator : VoxelGenerator :=
  { multipass := some ⟨2, 0⟩,
    get_block_rendering_shader := none,
    get_block_rendering_shader_parameters := 0,
    get_block_rendering_shader_outputs := 0,
    generate_block := fun b _ _ => (b, ⟨0⟩),
    generate_broad_block := fun b _ _ => (b, false) }

/-- A valid dependency whose stream saves generator output. -/
def saving_dependency : StreamingDependency := ⟨some multipass_generator, some ⟨true⟩, true⟩

/-- A valid dependency whose stream does not save generator output. -/
def plain_dependency : StreamingDependency := ⟨some multipass_generator, some ⟨false⟩, true⟩

/-- A dependency that has been invalidated. -/
def invalidated_dependency : StreamingDependency := ⟨some multipass_generator, some ⟨true⟩, false⟩

/-- A task at the origin for volume 0, with tracker 7, that has not run. -/
def task : GenerateBlockTask :=
  { self_ptr := 2, voxels := none, position := ⟨0, 0, 0⟩, volume_id := 0, lod_index := 0,
    block_size := 16, drop_beyond_max_distance := true, use_gpu := false,
    priority_dependency := ⟨fun _ _ => (5, .fin 3), .fin 2⟩,
    stream_dependency := plain_dependency, data := none, tracker := some 7,
    has_run := false, too_far := false, max_lod_hint := 0, _stage := 0,
    _gpu_generation_results := [] }

/-- The same task after a completed run, with buffer 0. -/
def finished_task : GenerateBlockTask :=
  { task with has_run := true, voxels := some 0, max_lod_hint := 3 }

/-- A task with buffer 0 that has not run and whose stream saves generator output. -/
def saving_task : GenerateBlockTask :=
  { task with voxels := some 0, stream_dependency := saving_dependency }

/-- A world with nothing in it but the given volume table, buffers and blocks of map 0. -/
def world (volumes : VolumeID → Option VolumeCallbacks) (buffers : List VoxelBufferInternal)
    (blocks : Vector3i → Option (Option Block)) : World :=
  { volumes := volumes, async_io_tasks := [], gpu_tasks := [], buffers := buffers,
    maps := fun _ => ⟨blocks⟩, data_output_calls := [], tracker_calls := [],
    generator_calls := [], modifier_calls := [], log := [], events := [] }

/-- Volume 0 is registered with callback 3 and user data 9. -/
def volumes_ok : VolumeID → Option VolumeCallbacks :=
  fun id => if id = 0 then some ⟨some 3, 9⟩ else none

/-- Volume 0 is registered, its data output callback is null. -/
def volumes_null_callback : VolumeID → Option VolumeCallbacks :=
  fun id => if id = 0 then some ⟨none, 9⟩ else none

/-- No volume is registered. -/
def volumes_none : VolumeID → Option VolumeCallbacks := fun _ => none

/-- A buffer of 16 cubed with some content. -/
def buffer : VoxelBufferInternal := ⟨⟨16, 16, 16⟩, [1, 2, 3]⟩

/-- A map with a single entry at the origin. -/
def blocks_with (b : Block) : Vector3i → Option (Option Block) :=
  fun p => if p = ⟨0, 0, 0⟩ then some (some b) else none

/-- An empty map. -/
def blocks_none : Vector3i → Option (Option Block) := fun _ => none

/-- An unfinished block (subpass 0 of 3) with a producer running and no waiting consumer. -/
def block_pending : Block := ⟨buffer, none, 1, 0⟩

/-- An unfinished block with a producer running on which task 1 already waits. -/
def block_pending_with_waiter : Block := ⟨buffer, some 1, 1, 0⟩

/-- An unfinished block on which no producer runs. -/
def block_stalled : Block := ⟨buffer, none, 0, 0⟩

/-- A block at the final subpass. -/
def block_final : Block := ⟨buffer, none, 0, 2⟩

/-- A single-pass generator with compute shader 4 whose broad-block shortcut fails; it writes
the origin into the buffer and returns hint 5. -/
def generator : VoxelGenerator :=
  { multipass := none,
    get_block_rendering_shader := some 4,
    get_block_rendering_shader_parameters := 0,
    get_block_rendering_shader_outputs := 0,
    generate_block := fun b origin _ => (⟨b.size, [origin.x, origin.y, origin.z]⟩, ⟨5⟩),
    generate_broad_block := fun b _ _ => (b, false) }

/-- The same generator with a broad-block shortcut that resolves every block. -/
def generator_broad : VoxelGenerator :=
  { generator with generate_broad_block := fun b _ _ => (⟨b.size, [7]⟩, true) }

/-- The same generator without a compute shader. -/
def generator_no_shader : VoxelGenerator :=
  { generator with get_block_rendering_shader := none }

/-- A modifier stack that appends a voxel, with one GPU modifier. -/
def volume_data : VoxelData :=
  ⟨⟨fun b _ => ⟨b.size, b.content ++ [9]⟩, fun _ _ => [⟨fun _ => 11, 12⟩]⟩⟩

/-- A fresh single-pass CPU task at position (1, 2, 3), LOD 1, block size 16, with volume data;
its stream does not save generator output. -/
def cpu_task : GenerateBlockTask :=
  { task with position := ⟨1, 2, 3⟩, lod_index := 1, data := some volume_data,
              stream_dependency := ⟨some generator, some ⟨false⟩, true⟩ }

/-- The CPU task after its dependency was invalidated. -/
def cpu_task_invalidated : GenerateBlockTask :=
  { cpu_task with stream_dependency := ⟨some generator, some ⟨false⟩, false⟩ }

/-- A fresh single-pass GPU task at stage 0 with the given generator. -/
def gpu_task (g : VoxelGenerator) : GenerateBlockTask :=
  { cpu_task with use_gpu := true, stream_dependency := ⟨some g, some ⟨false⟩, true⟩ }

/-- The GPU task as suspended at stage 0: its buffer is cell 0. -/
def gpu_task_suspended : GenerateBlockTask :=
  { gpu_task generator with voxels := some 0 }

/-- A task whose generator is null. -/
def task_no_generator : GenerateBlockTask :=
  { task with stream_dependency := ⟨none, none, true⟩ }

/-- Raw GPU results for one box. -/
def gpu_results : List GenerateBlockGPUTaskResult :=
  [⟨⟨⟨0, 0, 0⟩, ⟨16, 16, 16⟩⟩, [1, 2]⟩]

/-- A CPU task far from the origin: position (2 ^ 30, 0, 0) at LOD 2, block size 16. -/
def far_task : GenerateBlockTask :=
  { cpu_task with position := ⟨2 ^ 30, 0, 0⟩, lod_index := 2 }

/-- The context the executor passes to a fresh invocation. -/
def ctx : ThreadedTaskContext := ⟨0, .STATUS_COMPLETE⟩

end Examples

/-! ## Properties of `apply_result` -/

namespace GenerateBlockTask

/-- Outside the early return of line 285, `apply_result` makes exactly one call on an attached
tracker: `post_complete` when the volume is registered, the dependency valid and the task has
run, `abort` otherwise. -/
theorem apply_result_tracker_calls (t : GenerateBlockTask) (w : World) (tracker : TrackerPtr)
    (htracker : t.tracker = some tracker)
    (h : w.is_volume_valid t.volume_id = true → t.stream_dependency.valid = true →
      (w.get_volume_callbacks t.volume_id).data_output_callback ≠ none) :
    (t.apply_result w).tracker_calls = w.tracker_calls ++
      [if w.is_volume_valid t.volume_id && t.stream_dependency.valid && t.has_run
        then TrackerCall.post_complete tracker else TrackerCall.abort tracker] := by
  unfold apply_result
  by_cases hvol : w.is_volume_valid t.volume_id = true
  · by_cases hvalid : t.stream_dependency.valid = true
    · cases hcb : (w.get_volume_callbacks t.volume_id).data_output_callback with
      | none => exact absurd hcb (h hvol hvalid)
      | some callback =>
        cases hrun : t.has_run <;> simp [hvol, hvalid, hcb, hrun, htracker]
    · simp [hvol, hvalid, htracker]
  · simp [hvol, htracker, World.print]

/-- C1 (the code breaks it): with a tracker attached, a registered volume whose data output
callback is null and a valid dependency, `apply_result` returns at the `ERR_FAIL_COND` of line
285 and calls neither `abort` nor `post_complete` on the tracker. -/
theorem C1_apply_result_null_callback_calls_neither :
    Examples.task.tracker = some 7 ∧
    (Examples.task.apply_result
      (Examples.world Examples.volumes_null_callback [] Examples.blocks_none)).tracker_calls = [] ∧
    (Examples.task.apply_result
      (Examples.world Examples.volumes_null_callback [] Examples.blocks_none)).log =
        [LogEntry.error_data_output_callback_is_null] := by
  decide

/-- C2 (the code breaks it): the task has run, its dependency is valid and its volume is
registered, yet `apply_result` does not call `post_complete` on the attached tracker (nor
`abort`), because the callback of the volume is null and line 285 returns. -/
theorem C2_apply_result_null_callback_no_post_complete :
    Examples.finished_task.has_run = true ∧
    Examples.finished_task.stream_dependency.valid = true ∧
    (Examples.world Examples.volumes_null_callback [Examples.buffer]
      Examples.blocks_none).is_volume_valid Examples.finished_task.volume_id = true ∧
    Examples.finished_task.tracker = some 7 ∧
    TrackerCall.post_complete 7 ∉ (Examples.finished_task.apply_result
      (Examples.world Examples.volumes_null_callback [Examples.buffer]
        Examples.blocks_none)).tracker_calls ∧
    TrackerCall.abort 7 ∉ (Examples.finished_task.apply_result
      (Examples.world Examples.volumes_null_callback [Examples.buffer]
        Examples.blocks_none)).tracker_calls := by
  decide

/-- C3: when the stream dependency has been invalidated or the volume is no longer registered,
`apply_result` does not invoke the data output callback and an attached tracker receives
exactly one call, `abort`, whatever `has_run` is. -/
theorem C3_apply_result_invalidated_aborts (t : GenerateBlockTask) (w : World)
    (h : t.stream_dependency.valid = false ∨ w.is_volume_valid t.volume_id = false) :
    (t.apply_result w).data_output_calls = w.data_output_calls ∧
    ∀ tracker, t.tracker = some tracker →
      (t.apply_result w).tracker_calls = w.tracker_calls ++ [TrackerCall.abort tracker] := by
  unfold apply_result
  by_cases hvol : w.is_volume_valid t.volume_id = true
  · have hvalid : t.stream_dependency.valid = false := by
      rcases h with h | h
      · exact h
      · rw [hvol] at h; exact absurd h (by decide)
    constructor
    · cases htr : t.tracker <;> simp [hvol, hvalid]
    · intro tracker htr
      simp [hvol, hvalid, htr]
  · constructor
    · cases htr : t.tracker <;> simp [hvol, World.print]
    · intro tracker htr
      simp [hvol, htr, World.print]

/-- Witness of C3: a task that has run, whose dependency was invalidated, on a registered
volume with a callback. -/
theorem C3_apply_result_invalidated_aborts_witness :
    ({ Examples.finished_task with
        stream_dependency := Examples.invalidated_dependency }).stream_dependency.valid = false ∧
    (GenerateBlockTask.apply_result
      { Examples.finished_task with stream_dependency := Examples.invalidated_dependency }
      (Examples.world Examples.volumes_ok [Examples.buffer] Examples.blocks_none)).data_output_calls
        = [] ∧
    (GenerateBlockTask.apply_result
      { Examples.finished_task with stream_dependency := Examples.invalidated_dependency }
      (Examples.world Examples.volumes_ok [Examples.buffer] Examples.blocks_none)).tracker_calls
        = [] ++ [TrackerCall.abort 7] :=
  ⟨rfl,
   (C3_apply_result_invalidated_aborts
      { Examples.finished_task with stream_dependency := Examples.invalidated_dependency }
      (Examples.world Examples.volumes_ok [Examples.buffer] Examples.blocks_none) (Or.inl rfl)).1,
   (C3_apply_result_invalidated_aborts
      { Examples.finished_task with stream_dependency := Examples.invalidated_dependency }
      (Examples.world Examples.volumes_ok [Examples.buffer] Examples.blocks_none) (Or.inl rfl)).2
      7 rfl⟩

/-- With a registered volume, a non-null callback and a valid dependency, `apply_result` adds
exactly one call of the callback, with the record of lines 269-282. -/
theorem apply_result_data_output_calls (t : GenerateBlockTask) (w : World)
    (callbacks : VolumeCallbacks) (callback : Nat)
    (hvol : w.volumes t.volume_id = some callbacks)
    (hcb : callbacks.data_output_callback = some callback)
    (hvalid : t.stream_dependency.valid = true) :
    (t.apply_result w).data_output_calls = w.data_output_calls ++
      [⟨callback, callbacks.data,
        { voxels := t.voxels, position := t.position, lod_index := t.lod_index,
          dropped := !t.has_run, max_lod_hint := t.max_lod_hint, initial_load := false,
          type := if t.stream_saves_generator_output then .TYPE_LOADED else .TYPE_GENERATED }⟩] := by
  have hv : w.is_volume_valid t.volume_id = true := by simp [World.is_volume_valid, hvol]
  have hc : w.get_volume_callbacks t.volume_id = callbacks := by
    simp [World.get_volume_callbacks, hvol]
  unfold apply_result stream_saves_generator_output
  cases htr : t.tracker <;> cases hrun : t.has_run <;>
    cases hs : t.stream_dependency.stream <;> simp [hv, hvalid, hc, hcb, hrun]

/-- C4: when the volume is registered with a non-null callback and the dependency is valid,
`apply_result` invokes that callback exactly once, with the user data of the volume and a
record that carries the task's buffer pointer, position, LOD and max-LOD hint, with
`dropped = !has_run`, `initial_load = false`, and type `TYPE_LOADED` exactly when the stream
is set and saves generator output, `TYPE_GENERATED` otherwise. -/
theorem C4_apply_result_delivers_once (t : GenerateBlockTask) (w : World)
    (callbacks : VolumeCallbacks) (callback : Nat)
    (hvol : w.volumes t.volume_id = some callbacks)
    (hcb : callbacks.data_output_callback = some callback)
    (hvalid : t.stream_dependency.valid = true) :
    ∃ o : BlockDataOutput,
      (t.apply_result w).data_output_calls =
        w.data_output_calls ++ [⟨callback, callbacks.data, o⟩] ∧
      o.voxels = t.voxels ∧ o.position = t.position ∧ o.lod_index = t.lod_index ∧
      o.max_lod_hint = t.max_lod_hint ∧ o.dropped = !t.has_run ∧ o.initial_load = false ∧
      (o.type = BlockDataOutput.Type.TYPE_LOADED ↔ t.stream_saves_generator_output = true) ∧
      (o.type = BlockDataOutput.Type.TYPE_GENERATED ↔ t.stream_saves_generator_output = false) := by
  refine ⟨_, apply_result_data_output_calls t w callbacks callback hvol hcb hvalid,
    rfl, rfl, rfl, rfl, rfl, rfl, ?_, ?_⟩
  · cases t.stream_saves_generator_output <;> simp
  · cases t.stream_saves_generator_output <;> simp

/-- Witness of C4: the finished task on a registered volume with callback 3. -/
theorem C4_apply_result_delivers_once_witness :
    ∃ o : BlockDataOutput,
      (Examples.finished_task.apply_result
        (Examples.world Examples.volumes_ok [Examples.buffer] Examples.blocks_none)).data_output_calls
        = [] ++ [⟨3, 9, o⟩] ∧
      o.voxels = some 0 ∧ o.position = ⟨0, 0, 0⟩ ∧ o.lod_index = 0 ∧
      o.max_lod_hint = 3 ∧ o.dropped = !true ∧ o.initial_load = false ∧
      (o.type = BlockDataOutput.Type.TYPE_LOADED ↔
        Examples.finished_task.stream_saves_generator_output = true) ∧
      (o.type = BlockDataOutput.Type.TYPE_GENERATED ↔
        Examples.finished_task.stream_saves_generator_output = false) :=
  C4_apply_result_delivers_once Examples.finished_task
    (Examples.world Examples.volumes_ok [Examples.buffer] Examples.blocks_none)
    ⟨some 3, 9⟩ 3 rfl rfl rfl

/-! ## Properties of `run_stream_saving_and_finish` -/

/-- A pointer that reads successfully lies inside the heap. -/
theorem lt_length_of_getElem_some {l : List VoxelBufferInternal} {p : Nat} {buf : VoxelBufferInternal}
    (h : l[p]? = some buf) : p < l.length := by
  rcases Nat.lt_or_ge p l.length with h1 | h1
  · exact h1
  · rw [List.getElem?_eq_none h1] at h; cases h

/-- When the task's buffer pointer is live, `run_stream_saving_and_finish` returns with
`has_run` set, and touches neither the maps, the recorded steps, the GPU queue nor any
buffer that existed before. -/
theorem run_stream_saving_and_finish_frame (t : GenerateBlockTask) (w : World) (p : BufferPtr)
    (buf : VoxelBufferInternal) (hp : t.voxels = some p) (hbuf : w.buffers[p]? = some buf) :
    ∃ w', t.run_stream_saving_and_finish w = .ok ({ t with has_run := true }, w') ∧
      w'.maps = w.maps ∧ w'.events = w.events ∧ w'.volumes = w.volumes ∧
      w'.gpu_tasks = w.gpu_tasks ∧ w'.data_output_calls = w.data_output_calls ∧
      w'.tracker_calls = w.tracker_calls ∧ w'.generator_calls = w.generator_calls ∧
      w'.modifier_calls = w.modifier_calls ∧
      (∀ (q : Nat) (v : VoxelBufferInternal),
        w.buffers[q]? = some v → w'.buffers[q]? = some v) := by
  have hlt : p < w.buffers.length := lt_length_of_getElem_some hbuf
  unfold run_stream_saving_and_finish
  cases hv : t.stream_dependency.valid
  · exact ⟨w, by simp⟩
  · cases hs : t.stream_dependency.stream with
    | none => exact ⟨w, by simp⟩
    | some stream =>
      cases hg : stream.get_save_generator_output
      · exact ⟨w, by simp [hg]⟩
      · obtain ⟨save, hsave⟩ : ∃ s : SaveBlockDataTask, s =
            { volume_id := t.volume_id, position := t.position, lod_index := t.lod_index,
              block_size := t.block_size, voxels := some w.buffers.length,
              stream_dependency := t.stream_dependency, tracker := none } := ⟨_, rfl⟩
        refine ⟨{ w with log := w.log ++ [.verbose_requesting_save t.position t.lod_index],
                         buffers := w.buffers ++ [buf],
                         async_io_tasks := w.async_io_tasks ++ [save] },
              ?_, rfl, rfl, rfl, rfl, rfl, rfl, rfl, rfl, ?_⟩
        · simp [hg, hp, World.make_shared_instance, World.print, World.read_buffer,
            List.getElem?_append_left hlt, hbuf, World.write_buffer, World.push_async_io_task,
            VoxelBufferInternal.duplicate_to, hsave]
        · intro q v hq
          have hql : q < w.buffers.length := lt_length_of_getElem_some hq
          simp [List.getElem?_append_left hql, hq]

/-- C5: `run_stream_saving_and_finish` ends with `has_run = true` and the same buffer pointer
in every case. When the dependency is invalid, the stream unset or not saving generator
output, the world is left as it was: no save task. When the dependency is valid and the
stream saves generator output, exactly one save task is queued; it carries the task's volume
id, position, LOD and block size and a pointer to a new heap cell, different from the task's
own, that holds a buffer equal to the task's; the task's own buffer and every other buffer
are unchanged. -/
theorem C5_run_stream_saving_and_finish (t : GenerateBlockTask) (w : World) :
    (t.saves_generator_output = false →
      t.run_stream_saving_and_finish w = .ok ({ t with has_run := true }, w)) ∧
    (t.saves_generator_output = true →
      ∀ (p : BufferPtr) (buf : VoxelBufferInternal), t.voxels = some p →
        w.buffers[p]? = some buf →
        ∃ (save_task : SaveBlockDataTask) (w' : World),
          t.run_stream_saving_and_finish w = .ok ({ t with has_run := true }, w') ∧
          w'.async_io_tasks = w.async_io_tasks ++ [save_task] ∧
          save_task.voxels = some w.buffers.length ∧
          w'.buffers = w.buffers ++ [buf] ∧
          p ≠ w.buffers.length ∧
          w'.buffers[p]? = some buf ∧
          save_task.volume_id = t.volume_id ∧ save_task.position = t.position ∧
          save_task.lod_index = t.lod_index ∧ save_task.block_size = t.block_size ∧
          w'.gpu_tasks = w.gpu_tasks ∧ w'.maps = w.maps) := by
  constructor
  · intro h
    unfold saves_generator_output at h
    unfold run_stream_saving_and_finish
    cases hv : t.stream_dependency.valid
    · simp
    · cases hs : t.stream_dependency.stream with
      | none => simp
      | some stream =>
        simp [hv, hs] at h
        simp [h]
  · intro h p buf hp hbuf
    unfold saves_generator_output at h
    cases hs : t.stream_dependency.stream with
    | none => simp [hs] at h
    | some stream =>
      simp [hs] at h
      have hlt : p < w.buffers.length := lt_length_of_getElem_some hbuf
      refine ⟨{ volume_id := t.volume_id, position := t.position, lod_index := t.lod_index,
                block_size := t.block_size, voxels := some w.buffers.length,
                stream_dependency := t.stream_dependency, tracker := none },
              { w with log := w.log ++ [.verbose_requesting_save t.position t.lod_index],
                       buffers := w.buffers ++ [buf],
                       async_io_tasks := w.async_io_tasks ++ [_] },
              ?_, rfl, rfl, rfl, Nat.ne_of_lt hlt, ?_, rfl, rfl, rfl, rfl, rfl, rfl⟩
      · unfold run_stream_saving_and_finish
        simp [h.1, h.2, hs, hp, World.make_shared_instance, World.print, World.read_buffer,
          List.getElem?_append_left hlt, hbuf, World.write_buffer, World.push_async_io_task,
          VoxelBufferInternal.duplicate_to]
      · simp [List.getElem?_append_left hlt, hbuf]

/-- Witness of C5: a task whose stream saves generator output, with its buffer in cell 0. -/
theorem C5_run_stream_saving_and_finish_witness :
    Examples.saving_task.saves_generator_output = true ∧
    ∃ (save_task : SaveBlockDataTask) (w' : World),
      Examples.saving_task.run_stream_saving_and_finish
          (Examples.world Examples.volumes_ok [Examples.buffer] Examples.blocks_none) =
        .ok ({ Examples.saving_task with has_run := true }, w') ∧
      w'.async_io_tasks = [] ++ [save_task] ∧
      save_task.voxels = some 1 ∧
      w'.buffers = [Examples.buffer] ++ [Examples.buffer] ∧
      0 ≠ 1 ∧
      w'.buffers[0]? = some Examples.buffer ∧
      save_task.volume_id = 0 ∧ save_task.position = ⟨0, 0, 0⟩ ∧
      save_task.lod_index = 0 ∧ save_task.block_size = 16 ∧
      w'.gpu_tasks = [] ∧ w'.maps = (fun _ => ⟨Examples.blocks_none⟩) :=
  ⟨rfl, (C5_run_stream_saving_and_finish Examples.saving_task
    (Examples.world Examples.volumes_ok [Examples.buffer] Examples.blocks_none)).2 rfl
    0 Examples.buffer rfl rfl⟩

/-! ## The multipass path of `run` -/

/-- Outcome of `run` when the map has no entry at the position: nothing but the lock steps. -/
theorem run_multipass_absent (ext : Externals) (t : GenerateBlockTask) (ctx : ThreadedTaskContext)
    (w : World) (mg : VoxelGeneratorMultipass)
    (hpath : t.on_multipass_path mg)
    (hentry : (w.maps mg.map).blocks t.position = none) :
    t.run ext ctx w =
      .ok (t, ctx, { w with events := w.events ++ events_absent mg.map t.position }) := by
  obtain ⟨g, hg, hm, hpass⟩ := hpath
  unfold run events_absent
  simp [hg, hm, hpass, World.emit, hentry]

/-- Outcome of `run` on an unfinished block on which no producer runs: nothing but the lock
steps and the inspection of the block. -/
theorem run_multipass_stalled (ext : Externals) (t : GenerateBlockTask)
    (ctx : ThreadedTaskContext) (w : World) (mg : VoxelGeneratorMultipass) (b : Block)
    (hpath : t.on_multipass_path mg)
    (hentry : (w.maps mg.map).blocks t.position = some (some b))
    (hnot_final : b.subpass_index ≠ final_subpass_index ext mg)
    (hmask : b.pending_subpass_tasks_mask = 0) :
    t.run ext ctx w =
      .ok (t, ctx, { w with events := w.events ++ events_stalled mg.map t.position }) := by
  obtain ⟨g, hg, hm, hpass⟩ := hpath
  unfold final_subpass_index at hnot_final
  unfold run events_stalled
  simp [hg, hm, hpass, World.emit, hentry, hnot_final, hmask]

/-- Outcome of `run` on an unfinished block with a producer running: the status is
`STATUS_TAKEN_OUT` and the entry of the block holds this task as its waiting consumer. -/
theorem run_multipass_pending (ext : Externals) (t : GenerateBlockTask)
    (ctx : ThreadedTaskContext) (w : World) (mg : VoxelGeneratorMultipass) (b : Block)
    (hpath : t.on_multipass_path mg)
    (hentry : (w.maps mg.map).blocks t.position = some (some b))
    (hnot_final : b.subpass_index ≠ final_subpass_index ext mg)
    (hmask : b.pending_subpass_tasks_mask ≠ 0) :
    t.run ext ctx w = .ok (t, { ctx with status := Status.STATUS_TAKEN_OUT },
      { w with
        maps := Function.update w.maps mg.map
          ⟨Function.update (w.maps mg.map).blocks t.position
            (some (some { b with final_pending_task := some t.self_ptr }))⟩,
        events := w.events ++ events_pending mg.map t.position t.self_ptr }) := by
  obtain ⟨g, hg, hm, hpass⟩ := hpath
  unfold final_subpass_index at hnot_final
  unfold run events_pending
  simp [hg, hm, hpass, World.emit, hentry, hnot_final, hmask, World.write_block]

/-- Outcome of `run` on a final block: the buffer of the block is copied into a new heap cell,
which becomes the task's buffer, then `run_stream_saving_and_finish` runs on that state and
returns, and the read lock is released. -/
theorem run_multipass_final (ext : Externals) (t : GenerateBlockTask) (ctx : ThreadedTaskContext)
    (w : World) (mg : VoxelGeneratorMultipass) (b : Block)
    (hpath : t.on_multipass_path mg)
    (hentry : (w.maps mg.map).blocks t.position = some (some b))
    (hfinal : b.subpass_index = final_subpass_index ext mg) :
    ∃ w2, run_stream_saving_and_finish { t with voxels := some w.buffers.length }
          (world_after_copy w mg.map t.position b) =
        .ok ({ t with voxels := some w.buffers.length, has_run := true }, w2) ∧
      t.run ext ctx w = .ok ({ t with voxels := some w.buffers.length, has_run := true }, ctx,
        w2.emit (.spatial_unlock_read mg.map (BoxBounds3i.from_position t.position))) ∧
      w2.maps = w.maps ∧
      w2.events = w.events ++ events_copy mg.map t.position w.buffers.length ∧
      w2.gpu_tasks = w.gpu_tasks ∧
      (∀ (q : Nat) (v : VoxelBufferInternal),
        (w.buffers ++ [b.voxels])[q]? = some v → w2.buffers[q]? = some v) := by
  obtain ⟨g, hg, hm, hpass⟩ := hpath
  unfold final_subpass_index at hfinal
  obtain ⟨w2, h2, hmaps, hevents, -, hgpu, -, -, -, -, hbuffers⟩ :=
    run_stream_saving_and_finish_frame
      { t with voxels := some w.buffers.length }
      (world_after_copy w mg.map t.position b)
      w.buffers.length b.voxels rfl (by simp [world_after_copy])
  refine ⟨w2, h2, ?_, hmaps, hevents, hgpu, hbuffers⟩
  simp only [world_after_copy, events_copy] at h2
  unfold run
  simp [hg, hm, hpass, World.emit, hentry, hfinal, World.make_shared_instance,
    World.modify_buffer, World.read_buffer, World.write_buffer, VoxelBufferInternal.create,
    VoxelBufferInternal.copy_from, VoxelBufferInternal.get_size, bind, Except.bind, h2]
  rfl

/-- C6: on the multipass path, when the map has no entry at the task's position, or the entry
is not at the final subpass and its pending mask is zero, `run` returns the task and the
context as they were (status and `has_run` unchanged) and a world that differs from the
initial one only by the recorded lock steps: no registration on a block, no buffer copy, map,
blocks, buffers and queues unchanged. If `has_run` was false, a following `apply_result`
on a registered volume with a callback and a valid dependency delivers exactly one record,
with `dropped = true`. -/
theorem C6_run_multipass_drop (ext : Externals) (t : GenerateBlockTask)
    (ctx : ThreadedTaskContext) (w : World) (mg : VoxelGeneratorMultipass)
    (hpath : t.on_multipass_path mg)
    (hstale : (w.maps mg.map).blocks t.position = none ∨
      ∃ b, (w.maps mg.map).blocks t.position = some (some b) ∧
        b.subpass_index ≠ final_subpass_index ext mg ∧ b.pending_subpass_tasks_mask = 0) :
    ∃ evs : List Event,
      t.run ext ctx w = .ok (t, ctx, { w with events := w.events ++ evs }) ∧
      (∀ m pos task, Event.set_final_pending_task m pos task ∉ evs) ∧
      (∀ m pos dst, Event.copy_from_block m pos dst ∉ evs) ∧
      (t.has_run = false →
        ∀ (callbacks : VolumeCallbacks) (callback : Nat),
          w.volumes t.volume_id = some callbacks →
          callbacks.data_output_callback = some callback →
          t.stream_dependency.valid = true →
          ∃ o : BlockDataOutput,
            (t.apply_result { w with events := w.events ++ evs }).data_output_calls =
              w.data_output_calls ++ [⟨callback, callbacks.data, o⟩] ∧
            o.dropped = true) := by
  have hdeliver : ∀ evs : List Event, t.has_run = false →
      ∀ (callbacks : VolumeCallbacks) (callback : Nat),
        w.volumes t.volume_id = some callbacks →
        callbacks.data_output_callback = some callback →
        t.stream_dependency.valid = true →
        ∃ o : BlockDataOutput,
          (t.apply_result { w with events := w.events ++ evs }).data_output_calls =
            w.data_output_calls ++ [⟨callback, callbacks.data, o⟩] ∧
          o.dropped = true := by
    intro evs hrun callbacks callback hvol hcb hvalid
    exact ⟨_, apply_result_data_output_calls t { w with events := w.events ++ evs }
      callbacks callback hvol hcb hvalid, by simp [hrun]⟩
  rcases hstale with habsent | ⟨b, hentry, hnot_final, hmask⟩
  · exact ⟨events_absent mg.map t.position, run_multipass_absent ext t ctx w mg hpath habsent,
      by simp [events_absent], by simp [events_absent], hdeliver _⟩
  · exact ⟨events_stalled mg.map t.position,
      run_multipass_stalled ext t ctx w mg b hpath hentry hnot_final hmask,
      by simp [events_stalled], by simp [events_stalled], hdeliver _⟩

/-- Witness of C6: the task on an empty map, then `apply_result` on a registered volume. -/
theorem C6_run_multipass_drop_witness :
    Examples.task.on_multipass_path ⟨2, 0⟩ ∧
    ∃ evs : List Event,
      Examples.task.run Examples.ext Examples.ctx
          (Examples.world Examples.volumes_ok [] Examples.blocks_none) =
        .ok (Examples.task, Examples.ctx,
          { Examples.world Examples.volumes_ok [] Examples.blocks_none with
            events := [] ++ evs }) ∧
      ∃ o : BlockDataOutput,
        (Examples.task.apply_result
          { Examples.world Examples.volumes_ok [] Examples.blocks_none with
            events := [] ++ evs }).data_output_calls = [] ++ [⟨3, 9, o⟩] ∧
        o.dropped = true :=
  ⟨⟨Examples.multipass_generator, rfl, rfl, by decide⟩,
   match C6_run_multipass_drop Examples.ext Examples.task Examples.ctx
      (Examples.world Examples.volumes_ok [] Examples.blocks_none) ⟨2, 0⟩
      ⟨Examples.multipass_generator, rfl, rfl, by decide⟩ (Or.inl rfl) with
   | ⟨evs, hrun, _, _, hdeliver⟩ => ⟨evs, hrun, hdeliver rfl ⟨some 3, 9⟩ 3 rfl rfl rfl⟩⟩

/-- C7: on the multipass path, when the entry of the block exists, is not at the final subpass
and has a non-zero pending mask, `run` returns with status `STATUS_TAKEN_OUT`, the task
itself unchanged (`has_run` and its buffer pointer as before), the block's
`final_pending_task` set to this task and the rest of the block, of the map and of the other
maps unchanged; no buffer is allocated, written or copied and no save or GPU task is
queued. -/
theorem C7_run_multipass_suspends (ext : Externals) (t : GenerateBlockTask)
    (ctx : ThreadedTaskContext) (w : World) (mg : VoxelGeneratorMultipass) (b : Block)
    (hpath : t.on_multipass_path mg)
    (hentry : (w.maps mg.map).blocks t.position = some (some b))
    (hnot_final : b.subpass_index ≠ final_subpass_index ext mg)
    (hmask : b.pending_subpass_tasks_mask ≠ 0) :
    ∃ w', t.run ext ctx w = .ok (t, { ctx with status := Status.STATUS_TAKEN_OUT }, w') ∧
      (w'.maps mg.map).blocks t.position =
        some (some { b with final_pending_task := some t.self_ptr }) ∧
      (∀ pos, pos ≠ t.position → (w'.maps mg.map).blocks pos = (w.maps mg.map).blocks pos) ∧
      (∀ m, m ≠ mg.map → w'.maps m = w.maps m) ∧
      w'.buffers = w.buffers ∧ w'.async_io_tasks = w.async_io_tasks ∧
      w'.gpu_tasks = w.gpu_tasks ∧ w'.log = w.log ∧
      w'.events = w.events ++ events_pending mg.map t.position t.self_ptr ∧
      (∀ m pos dst, Event.copy_from_block m pos dst ∉ events_pending mg.map t.position t.self_ptr)
      := by
  refine ⟨_, run_multipass_pending ext t ctx w mg b hpath hentry hnot_final hmask,
    by simp, ?_, ?_, rfl, rfl, rfl, rfl, rfl, by simp [events_pending]⟩
  · intro pos hpos
    simp [Function.update, hpos]
  · intro m hm
    simp [Function.update, hm]

/-- Witness of C7: the task on a block at subpass 0 of 3 with a producer running. -/
theorem C7_run_multipass_suspends_witness :
    Examples.task.on_multipass_path ⟨2, 0⟩ ∧
    Examples.block_pending.subpass_index ≠ final_subpass_index Examples.ext ⟨2, 0⟩ ∧
    Examples.block_pending.pending_subpass_tasks_mask ≠ 0 ∧
    ∃ w', Examples.task.run Examples.ext Examples.ctx
          (Examples.world Examples.volumes_ok [] (Examples.blocks_with Examples.block_pending)) =
        .ok (Examples.task, ⟨0, Status.STATUS_TAKEN_OUT⟩, w') ∧
      (w'.maps 0).blocks ⟨0, 0, 0⟩ =
        some (some { Examples.block_pending with final_pending_task := some 2 }) ∧
      w'.buffers = [] ∧ w'.async_io_tasks = [] ∧ w'.gpu_tasks = [] :=
  ⟨⟨Examples.multipass_generator, rfl, rfl, by decide⟩, by decide, by decide,
   match C7_run_multipass_suspends Examples.ext Examples.task Examples.ctx
      (Examples.world Examples.volumes_ok [] (Examples.blocks_with Examples.block_pending))
      ⟨2, 0⟩ Examples.block_pending ⟨Examples.multipass_generator, rfl, rfl, by decide⟩ rfl
      (by decide) (by decide) with
   | ⟨w', hrun, hblock, _, _, hbuffers, hio, hgpu, _⟩ => ⟨w', hrun, hblock, hbuffers, hio, hgpu⟩⟩

/-- C8 as stated fails: task 1 waits on the pending block at the origin, task 2 runs on the
same block; `run` returns normally, the block's waiter is now task 2, task 1 is no longer
registered, and nothing was written to the log. -/
theorem C8_registered_waiter_replaced_counterexample :
    (Examples.world Examples.volumes_ok []
      (Examples.blocks_with Examples.block_pending_with_waiter)).final_pending_task 0 ⟨0, 0, 0⟩
      = some 1 ∧
    Examples.task.self_ptr ≠ 1 ∧
    ∃ w', Examples.task.run Examples.ext Examples.ctx
          (Examples.world Examples.volumes_ok []
            (Examples.blocks_with Examples.block_pending_with_waiter)) =
        .ok (Examples.task, ⟨0, Status.STATUS_TAKEN_OUT⟩, w') ∧
      w'.final_pending_task 0 ⟨0, 0, 0⟩ ≠ some 1 ∧
      w'.final_pending_task 0 ⟨0, 0, 0⟩ = some 2 ∧
      w'.log = [] :=
  ⟨by decide, by decide, _, rfl, by decide, by decide, rfl⟩

/-- C8 as amended: on an unfinished block with a non-zero pending mask on which another task
is registered as waiting consumer, `run` of a second task returns `STATUS_TAKEN_OUT`,
replaces the registered waiter by the second task (the first is no longer registered) and
writes nothing to the log: the one-waiter precondition is not checked. -/
theorem C8_second_waiter_overwrites (ext : Externals) (t : GenerateBlockTask)
    (ctx : ThreadedTaskContext) (w : World) (mg : VoxelGeneratorMultipass) (b : Block)
    (first : TaskPtr)
    (hpath : t.on_multipass_path mg)
    (hentry : (w.maps mg.map).blocks t.position = some (some b))
    (hnot_final : b.subpass_index ≠ final_subpass_index ext mg)
    (hmask : b.pending_subpass_tasks_mask ≠ 0)
    (hfirst : b.final_pending_task = some first)
    (hother : first ≠ t.self_ptr) :
    w.final_pending_task mg.map t.position = some first ∧
    ∃ w', t.run ext ctx w = .ok (t, { ctx with status := Status.STATUS_TAKEN_OUT }, w') ∧
      w'.final_pending_task mg.map t.position = some t.self_ptr ∧
      w'.final_pending_task mg.map t.position ≠ some first ∧
      w'.log = w.log := by
  refine ⟨by simp [World.final_pending_task, hentry, hfirst], _,
    run_multipass_pending ext t ctx w mg b hpath hentry hnot_final hmask, ?_, ?_, rfl⟩
  · simp [World.final_pending_task]
  · simp [World.final_pending_task]
    exact fun h => hother h.symm

/-- Witness of the amended C8: task 2 runs on the block on which task 1 waits. -/
theorem C8_second_waiter_overwrites_witness :
    Examples.task.on_multipass_path ⟨2, 0⟩ ∧
    Examples.block_pending_with_waiter.final_pending_task = some 1 ∧
    (1 : TaskPtr) ≠ Examples.task.self_ptr ∧
    (Examples.world Examples.volumes_none []
      (Examples.blocks_with Examples.block_pending_with_waiter)).final_pending_task 0 ⟨0, 0, 0⟩
      = some 1 ∧
    ∃ w', Examples.task.run Examples.ext Examples.ctx
          (Examples.world Examples.volumes_none []
            (Examples.blocks_with Examples.block_pending_with_waiter)) =
        .ok (Examples.task, ⟨0, Status.STATUS_TAKEN_OUT⟩, w') ∧
      w'.final_pending_task 0 ⟨0, 0, 0⟩ = some 2 ∧
      w'.final_pending_task 0 ⟨0, 0, 0⟩ ≠ some 1 ∧
      w'.log = [] :=
  ⟨⟨Examples.multipass_generator, rfl, rfl, by decide⟩, rfl, by decide,
   C8_second_waiter_overwrites Examples.ext Examples.task Examples.ctx
      (Examples.world Examples.volumes_none []
        (Examples.blocks_with Examples.block_pending_with_waiter))
      ⟨2, 0⟩ Examples.block_pending_with_waiter 1
      ⟨Examples.multipass_generator, rfl, rfl, by decide⟩ rfl (by decide) (by decide) rfl
      (by decide)⟩

/-- C9: on the multipass path, when the entry of the block exists and is at the final subpass,
`run` returns with the context unchanged (no `STATUS_TAKEN_OUT`) and `has_run = true`; the
task's buffer pointer is the heap cell allocated by this call, which did not exist before
and now holds a buffer with the size and the content of the block's buffer; no buffer that
existed before is touched and the maps, hence the block entry, are unchanged; the final
world is the one `run_stream_saving_and_finish` returns from the state after the copy,
followed by the release of the read lock. -/
theorem C9_run_multipass_final_copies (ext : Externals) (t : GenerateBlockTask)
    (ctx : ThreadedTaskContext) (w : World) (mg : VoxelGeneratorMultipass) (b : Block)
    (hpath : t.on_multipass_path mg)
    (hentry : (w.maps mg.map).blocks t.position = some (some b))
    (hfinal : b.subpass_index = final_subpass_index ext mg) :
    ∃ (t' : GenerateBlockTask) (w' : World),
      t.run ext ctx w = .ok (t', ctx, w') ∧
      t'.voxels = some w.buffers.length ∧
      w.buffers[w.buffers.length]? = none ∧
      (∃ v, w'.buffers[w.buffers.length]? = some v ∧
        v.size = b.voxels.size ∧ v.content = b.voxels.content) ∧
      (∀ (q : Nat) (v : VoxelBufferInternal), w.buffers[q]? = some v → w'.buffers[q]? = some v) ∧
      w'.maps = w.maps ∧
      (w'.maps mg.map).blocks t.position = some (some b) ∧
      t'.has_run = true ∧
      t' = { t with voxels := some w.buffers.length, has_run := true } ∧
      (∃ w2, run_stream_saving_and_finish { t with voxels := some w.buffers.length }
            (world_after_copy w mg.map t.position b) = .ok (t', w2) ∧
        w' = w2.emit (.spatial_unlock_read mg.map (BoxBounds3i.from_position t.position))) := by
  obtain ⟨w2, hfinish, hrun, hmaps, -, -, hbuffers⟩ :=
    run_multipass_final ext t ctx w mg b hpath hentry hfinal
  refine ⟨_, _, hrun, rfl, by simp, ⟨b.voxels, ?_, rfl, rfl⟩, ?_, hmaps, ?_, rfl, rfl,
    ⟨w2, hfinish, rfl⟩⟩
  · exact hbuffers _ _ (by simp)
  · intro q v hq
    have hql : q < w.buffers.length := lt_length_of_getElem_some hq
    exact hbuffers q v (by simp [List.getElem?_append_left hql, hq])
  · show (w2.maps mg.map).blocks t.position = some (some b)
    rw [hmaps]; exact hentry

/-- Witness of C9: the task on a block at the final subpass (index 2 of 3 subpasses). -/
theorem C9_run_multipass_final_copies_witness :
    Examples.task.on_multipass_path ⟨2, 0⟩ ∧
    Examples.block_final.subpass_index = final_subpass_index Examples.ext ⟨2, 0⟩ ∧
    ∃ (t' : GenerateBlockTask) (w' : World),
      Examples.task.run Examples.ext Examples.ctx
          (Examples.world Examples.volumes_ok [Examples.buffer]
            (Examples.blocks_with Examples.block_final)) = .ok (t', Examples.ctx, w') ∧
      t'.voxels = some 1 ∧
      (∃ v, w'.buffers[1]? = some v ∧ v.size = ⟨16, 16, 16⟩ ∧ v.content = [1, 2, 3]) ∧
      t'.has_run = true :=
  ⟨⟨Examples.multipass_generator, rfl, rfl, by decide⟩, by decide,
   match C9_run_multipass_final_copies Examples.ext Examples.task Examples.ctx
      (Examples.world Examples.volumes_ok [Examples.buffer]
        (Examples.blocks_with Examples.block_final))
      ⟨2, 0⟩ Examples.block_final ⟨Examples.multipass_generator, rfl, rfl, by decide⟩ rfl
      (by decide) with
   | ⟨t', w', hrun, hvoxels, _, hcell, _, _, _, hhas_run, _⟩ =>
     ⟨t', w', hrun, hvoxels, hcell, hhas_run⟩⟩

/-! ## Priority and cancellation -/

/-- C10: `get_priority` returns the priority of the evaluator unchanged and leaves
`too_far = (drop_beyond_max_distance && closest distance squared > drop_distance_squared)`,
a strict comparison that does not depend on the previous value of the flag; it changes no
other field read by `is_cancelled`; `is_cancelled` is true exactly when the dependency is
invalid or `too_far` is set; a task without the drop flag has `too_far = false` after
`get_priority`, so it is cancelled only by an invalid dependency; the comparison is strict:
a distance equal to the threshold is not greater. -/
theorem C10_get_priority_is_cancelled (ext : Externals) (t : GenerateBlockTask) :
    (t.get_priority ext).1 =
      (t.priority_dependency.evaluate t.lod_index ext.TASK_PRIORITY_GENERATE_BAND2).1 ∧
    (t.get_priority ext).2.too_far =
      (t.drop_beyond_max_distance &&
        (t.priority_dependency.evaluate t.lod_index ext.TASK_PRIORITY_GENERATE_BAND2).2.gt
          t.priority_dependency.drop_distance_squared) ∧
    (∀ flag : Bool, (get_priority ext { t with too_far := flag }).2.too_far =
      (t.get_priority ext).2.too_far) ∧
    (t.get_priority ext).2 = { t with too_far := (t.get_priority ext).2.too_far } ∧
    (t.is_cancelled = true ↔ t.stream_dependency.valid = false ∨ t.too_far = true) ∧
    ((t.get_priority ext).2.is_cancelled = true ↔
      t.stream_dependency.valid = false ∨
        (t.drop_beyond_max_distance = true ∧
          (t.priority_dependency.evaluate t.lod_index ext.TASK_PRIORITY_GENERATE_BAND2).2.gt
            t.priority_dependency.drop_distance_squared = true)) ∧
    (get_priority ext { t with drop_beyond_max_distance := false }).2.too_far = false ∧
    ((get_priority ext { t with drop_beyond_max_distance := false }).2.is_cancelled = true ↔
      t.stream_dependency.valid = false) ∧
    (∀ d : FloatVal, d.gt d = false) := by
  refine ⟨rfl, rfl, fun _ => rfl, rfl, ?_, ?_, ?_, ?_, ?_⟩
  · unfold is_cancelled
    cases t.stream_dependency.valid <;> cases t.too_far <;> simp
  · unfold is_cancelled get_priority
    cases t.stream_dependency.valid <;> simp
  · simp [get_priority]
  · unfold is_cancelled get_priority
    cases t.stream_dependency.valid <;> simp
  · intro d
    cases d <;> simp [FloatVal.gt]

/-! ## The direct path of `run` -/

/-- On the direct path `run` is lines 127-130 followed by lines 132-145. -/
theorem run_eq_direct (ext : Externals) (t : GenerateBlockTask) (ctx : ThreadedTaskContext)
    (w : World) (g : VoxelGenerator) (hpath : t.on_direct_path g) :
    t.run ext ctx w = (t.ensure_voxels w).bind (fun r => run_direct ext r.1 ctx r.2) := by
  obtain ⟨hg, hm⟩ := hpath
  unfold run ensure_voxels
  simp only [hg, hm]
  cases t.voxels <;> rfl

/-- When the buffer pointer is null or live, lines 127-130 return with the task pointing to
the working buffer. -/
theorem ensure_voxels_of_ready (t : GenerateBlockTask) (w : World) (p : BufferPtr)
    (buf : VoxelBufferInternal) (w0 : World) (h : t.buffer_ready w p buf w0) :
    t.ensure_voxels w = .ok ({ t with voxels := some p }, w0) ∧
    w0.buffers[p]? = some buf := by
  rcases h with ⟨hv, hp, hbuf, hw0⟩ | ⟨hv, hbuf, hw0⟩
  · subst hp hw0
    refine ⟨?_, by simp⟩
    unfold ensure_voxels
    simp [hv, World.make_shared_instance, World.modify_buffer, World.read_buffer,
      World.write_buffer, VoxelBufferInternal.create, Except.map, hbuf]
  · subst hw0
    refine ⟨?_, hbuf⟩
    unfold ensure_voxels
    simp only [hv]
    have : t = { t with voxels := some p } := by
      cases t; simp at hv; simp [hv]
    rw [← this]
    rfl

/-- With a null compute shader `run_gpu_task` prints an error and returns (line 156). -/
theorem run_gpu_task_shader_null (t : GenerateBlockTask) (ctx : ThreadedTaskContext) (w : World)
    (g : VoxelGenerator) (hg : t.stream_dependency.generator = some g)
    (hshader : g.get_block_rendering_shader = none) :
    t.run_gpu_task ctx w = .ok (t, ctx, w.print .error_generator_shader_is_null) := by
  unfold run_gpu_task
  simp [hg, hshader]

/-- When the broad-block shortcut succeeds `run_gpu_task` moves to stage 2 and submits
nothing (lines 162-165). -/
theorem run_gpu_task_broad (t : GenerateBlockTask) (ctx : ThreadedTaskContext) (w : World)
    (g : VoxelGenerator) (shader : Nat) (p : BufferPtr) (buf : VoxelBufferInternal)
    (hg : t.stream_dependency.generator = some g)
    (hshader : g.get_block_rendering_shader = some shader)
    (hp : t.voxels = some p) (hbuf : w.buffers[p]? = some buf)
    (hbroad : (g.generate_broad_block buf t.origin_in_voxels t.lod_index).2 = true) :
    t.run_gpu_task ctx w = .ok ({ t with _stage := 2 }, ctx, t.world_after_broad g p buf w) := by
  unfold origin_in_voxels at hbroad
  unfold run_gpu_task world_after_broad origin_in_voxels
  simp [hg, hshader, hp, World.read_buffer, hbuf, hbroad, World.write_buffer]

/-- When the broad-block shortcut fails `run_gpu_task` queues the GPU task and sets
`STATUS_TAKEN_OUT` (lines 167-192). -/
theorem run_gpu_task_submit (t : GenerateBlockTask) (ctx : ThreadedTaskContext) (w : World)
    (g : VoxelGenerator) (shader : Nat) (p : BufferPtr) (buf : VoxelBufferInternal)
    (hg : t.stream_dependency.generator = some g)
    (hshader : g.get_block_rendering_shader = some shader)
    (hp : t.voxels = some p) (hbuf : w.buffers[p]? = some buf)
    (hbroad : (g.generate_broad_block buf t.origin_in_voxels t.lod_index).2 = false) :
    t.run_gpu_task ctx w = .ok (t, { ctx with status := Status.STATUS_TAKEN_OUT },
      { t.world_after_broad g p buf w with
        modifier_calls := w.modifier_calls ++ t.gpu_modifier_calls,
        gpu_tasks := w.gpu_tasks ++ [t.gpu_task_built g shader] }) := by
  unfold origin_in_voxels at hbroad
  unfold run_gpu_task world_after_broad gpu_task_built gpu_modifier_calls gpu_modifier_aabb
    origin_in_voxels
  cases hd : t.data <;>
    simp [hg, hshader, hp, World.read_buffer, hbuf, hbroad, World.write_buffer,
      World.push_gpu_task, hd]

/-- With a live buffer `run_stream_saving_and_finish` returns, with `has_run` set and the
world of `world_after_finish`. -/
theorem run_stream_saving_and_finish_eq (t : GenerateBlockTask) (w : World) (p : BufferPtr)
    (buf : VoxelBufferInternal) (hp : t.voxels = some p) (hbuf : w.buffers[p]? = some buf) :
    t.run_stream_saving_and_finish w =
      .ok ({ t with has_run := true }, t.world_after_finish w buf) := by
  have hlt : p < w.buffers.length := lt_length_of_getElem_some hbuf
  unfold run_stream_saving_and_finish world_after_finish saves_generator_output save_task_built
  cases hv : t.stream_dependency.valid
  · simp
  · cases hs : t.stream_dependency.stream with
    | none => simp
    | some stream =>
      cases hg : stream.get_save_generator_output
      · simp [hg]
      · simp [hg, hp, World.make_shared_instance, World.print, World.read_buffer,
          List.getElem?_append_left hlt, hbuf, World.write_buffer, World.push_async_io_task,
          VoxelBufferInternal.duplicate_to]

/-- With an invalidated dependency `run_stream_saving_and_finish` only sets `has_run`. -/
theorem run_stream_saving_and_finish_invalid (t : GenerateBlockTask) (w : World)
    (hvalid : t.stream_dependency.valid = false) :
    t.run_stream_saving_and_finish w = .ok ({ t with has_run := true }, w) := by
  unfold run_stream_saving_and_finish
  simp [hvalid]

/-- With a live buffer `run_gpu_conversion` converts the stored results into that buffer and
moves to stage 2. -/
theorem run_gpu_conversion_eq (ext : Externals) (t : GenerateBlockTask) (w : World)
    (p : BufferPtr) (buf : VoxelBufferInternal)
    (hp : t.voxels = some p) (hbuf : w.buffers[p]? = some buf) :
    t.run_gpu_conversion ext w = .ok ({ t with _stage := 2 },
      { w with buffers :=
          w.buffers.set p (ext.convert_to_voxel_buffer t._gpu_generation_results buf) }) := by
  unfold run_gpu_conversion
  simp [hp, World.read_buffer, hbuf, World.write_buffer]

/-- With a generator and a live buffer `run_cpu_generation` returns, with the hint recorded
and the world of `world_after_cpu`. -/
theorem run_cpu_generation_eq (t : GenerateBlockTask) (w : World) (g : VoxelGenerator)
    (p : BufferPtr) (buf : VoxelBufferInternal)
    (hg : t.stream_dependency.generator = some g)
    (hp : t.voxels = some p) (hbuf : w.buffers[p]? = some buf) :
    t.run_cpu_generation w =
      .ok ({ t with max_lod_hint := t.cpu_max_lod_hint g buf }, t.world_after_cpu g p buf w) := by
  unfold run_cpu_generation world_after_cpu cpu_modifier_aabb cpu_max_lod_hint origin_in_voxels
  cases hd : t.data <;>
    simp [hg, hp, World.read_buffer, hbuf, World.write_buffer, hd]

/-- A live heap cell reads back what was stored in it. -/
theorem getElem_set_self_of_some {l : List VoxelBufferInternal} {p : Nat}
    {buf : VoxelBufferInternal} (v : VoxelBufferInternal) (h : l[p]? = some buf) :
    (l.set p v)[p]? = some v := by
  have hlt : p < l.length := lt_length_of_getElem_some h
  simp [List.getElem?_set, hlt]

/-- On the direct path with a null or live buffer pointer, `run` is `run_direct` on the task
with its working buffer. -/
theorem run_of_ready (ext : Externals) (t : GenerateBlockTask) (ctx : ThreadedTaskContext)
    (w : World) (g : VoxelGenerator) (p : BufferPtr) (buf : VoxelBufferInternal) (w0 : World)
    (hpath : t.on_direct_path g) (hready : t.buffer_ready w p buf w0) :
    t.run ext ctx w = run_direct ext { t with voxels := some p } ctx w0 := by
  rw [run_eq_direct ext t ctx w g hpath, (ensure_voxels_of_ready t w p buf w0 hready).1]
  rfl

/-- GPU path, stage 0, null shader: an error is printed, nothing else happens. -/
theorem run_direct_gpu_shader_null (ext : Externals) (t : GenerateBlockTask)
    (ctx : ThreadedTaskContext) (w : World) (g : VoxelGenerator)
    (hg : t.stream_dependency.generator = some g) (hgpu : t.use_gpu = true)
    (hstage : t._stage = 0) (hshader : g.get_block_rendering_shader = none) :
    run_direct ext t ctx w = .ok (t, ctx, w.print .error_generator_shader_is_null) := by
  unfold run_direct
  simp [hgpu, hstage, run_gpu_task_shader_null t ctx w g hg hshader, bind, Except.bind, pure, Except.pure]

/-- GPU path, stage 0, shortcut succeeds: stage 2 and persistence/finish in the same call. -/
theorem run_direct_gpu_broad (ext : Externals) (t : GenerateBlockTask)
    (ctx : ThreadedTaskContext) (w : World) (g : VoxelGenerator) (shader : Nat)
    (p : BufferPtr) (buf : VoxelBufferInternal)
    (hg : t.stream_dependency.generator = some g) (hgpu : t.use_gpu = true)
    (hstage : t._stage = 0) (hshader : g.get_block_rendering_shader = some shader)
    (hp : t.voxels = some p) (hbuf : w.buffers[p]? = some buf)
    (hbroad : (g.generate_broad_block buf t.origin_in_voxels t.lod_index).2 = true) :
    run_direct ext t ctx w = .ok ({ t with _stage := 2, has_run := true }, ctx,
      t.world_after_finish (t.world_after_broad g p buf w)
        (g.generate_broad_block buf t.origin_in_voxels t.lod_index).1) := by
  have hfin := run_stream_saving_and_finish_eq { t with _stage := 2 }
    (t.world_after_broad g p buf w) p
    (g.generate_broad_block buf t.origin_in_voxels t.lod_index).1 hp
    (getElem_set_self_of_some _ hbuf)
  unfold run_direct
  simp only [hgpu, hstage] at hfin
  simp [hgpu, hstage, run_gpu_task_broad t ctx w g shader p buf hg hshader hp hbuf hbroad,
    bind, Except.bind, pure, Except.pure, hfin]
  rfl

/-- GPU path, stage 0, shortcut fails: the GPU task is queued and the task is taken out. -/
theorem run_direct_gpu_submit (ext : Externals) (t : GenerateBlockTask)
    (ctx : ThreadedTaskContext) (w : World) (g : VoxelGenerator) (shader : Nat)
    (p : BufferPtr) (buf : VoxelBufferInternal)
    (hg : t.stream_dependency.generator = some g) (hgpu : t.use_gpu = true)
    (hstage : t._stage = 0) (hshader : g.get_block_rendering_shader = some shader)
    (hp : t.voxels = some p) (hbuf : w.buffers[p]? = some buf)
    (hbroad : (g.generate_broad_block buf t.origin_in_voxels t.lod_index).2 = false) :
    run_direct ext t ctx w = .ok (t, { ctx with status := Status.STATUS_TAKEN_OUT },
      { t.world_after_broad g p buf w with
        modifier_calls := w.modifier_calls ++ t.gpu_modifier_calls,
        gpu_tasks := w.gpu_tasks ++ [t.gpu_task_built g shader] }) := by
  unfold run_direct
  simp [hgpu, hstage, run_gpu_task_submit t ctx w g shader p buf hg hshader hp hbuf hbroad,
    bind, Except.bind, pure, Except.pure]

/-- GPU path, stage 1: conversion, then persistence/finish in the same call. -/
theorem run_direct_gpu_convert (ext : Externals) (t : GenerateBlockTask)
    (ctx : ThreadedTaskContext) (w : World) (p : BufferPtr) (buf : VoxelBufferInternal)
    (hgpu : t.use_gpu = true) (hstage : t._stage = 1)
    (hp : t.voxels = some p) (hbuf : w.buffers[p]? = some buf) :
    run_direct ext t ctx w = .ok ({ t with _stage := 2, has_run := true }, ctx,
      t.world_after_finish
        { w with buffers :=
            w.buffers.set p (ext.convert_to_voxel_buffer t._gpu_generation_results buf) }
        (ext.convert_to_voxel_buffer t._gpu_generation_results buf)) := by
  have hfin := run_stream_saving_and_finish_eq { t with _stage := 2 }
    { w with buffers :=
        w.buffers.set p (ext.convert_to_voxel_buffer t._gpu_generation_results buf) } p
    (ext.convert_to_voxel_buffer t._gpu_generation_results buf) hp
    (getElem_set_self_of_some _ hbuf)
  unfold run_direct
  simp only [hgpu, hstage] at hfin
  simp [hgpu, hstage, run_gpu_conversion_eq ext t w p buf hp hbuf, bind, Except.bind, pure,
    Except.pure, hfin]
  rfl

/-- GPU path, stage 2: persistence/finish. -/
theorem run_direct_gpu_finish (ext : Externals) (t : GenerateBlockTask)
    (ctx : ThreadedTaskContext) (w : World) (p : BufferPtr) (buf : VoxelBufferInternal)
    (hgpu : t.use_gpu = true) (hstage : t._stage = 2)
    (hp : t.voxels = some p) (hbuf : w.buffers[p]? = some buf) :
    run_direct ext t ctx w = .ok ({ t with has_run := true }, ctx,
      t.world_after_finish w buf) := by
  unfold run_direct
  simp [hgpu, hstage, bind, Except.bind, pure, Except.pure,
    run_stream_saving_and_finish_eq t w p buf hp hbuf]

/-- GPU path, stage above 2: no branch of lines 133-141 is taken. -/
theorem run_direct_gpu_idle (ext : Externals) (t : GenerateBlockTask)
    (ctx : ThreadedTaskContext) (w : World)
    (hgpu : t.use_gpu = true) (hstage : 2 < t._stage) :
    run_direct ext t ctx w = .ok (t, ctx, w) := by
  have h0 : t._stage ≠ 0 := by omega
  have h1 : t._stage ≠ 1 := by omega
  have h2 : t._stage ≠ 2 := by omega
  unfold run_direct
  simp [hgpu, h0, h1, h2, bind, Except.bind, pure, Except.pure]

/-- CPU path: generation, then persistence/finish in the same call. -/
theorem run_direct_cpu (ext : Externals) (t : GenerateBlockTask)
    (ctx : ThreadedTaskContext) (w : World) (g : VoxelGenerator)
    (p : BufferPtr) (buf : VoxelBufferInternal)
    (hg : t.stream_dependency.generator = some g) (hcpu : t.use_gpu = false)
    (hp : t.voxels = some p) (hbuf : w.buffers[p]? = some buf) :
    ∃ final : VoxelBufferInternal,
      (t.world_after_cpu g p buf w).buffers[p]? = some final ∧
      run_direct ext t ctx w = .ok
        ({ t with max_lod_hint := t.cpu_max_lod_hint g buf, has_run := true }, ctx,
         t.world_after_finish (t.world_after_cpu g p buf w) final) := by
  have hlive : ∃ final, (t.world_after_cpu g p buf w).buffers[p]? = some final := by
    unfold world_after_cpu
    cases t.data
    · exact ⟨_, getElem_set_self_of_some _ hbuf⟩
    · exact ⟨_, getElem_set_self_of_some _ hbuf⟩
  obtain ⟨final, hfinal⟩ := hlive
  refine ⟨final, hfinal, ?_⟩
  have hfin := run_stream_saving_and_finish_eq
    { t with max_lod_hint := t.cpu_max_lod_hint g buf }
    (t.world_after_cpu g p buf w) p final hp hfinal
  unfold run_direct
  simp only [hcpu] at hfin
  simp [hcpu, run_cpu_generation_eq t w g p buf hg hp hbuf, bind, Except.bind, pure,
    Except.pure, hfin]
  rfl

/-! ## The GPU and CPU paths -/

/-- The world after lines 127-130 differs from the initial one at most by the new cube at the
end of the heap. -/
theorem buffer_ready_frame (t : GenerateBlockTask) (w : World) (p : BufferPtr)
    (buf : VoxelBufferInternal) (w0 : World) (h : t.buffer_ready w p buf w0) :
    w0.buffers[p]? = some buf ∧
    w0.volumes = w.volumes ∧ w0.async_io_tasks = w.async_io_tasks ∧
    w0.gpu_tasks = w.gpu_tasks ∧ w0.maps = w.maps ∧
    w0.data_output_calls = w.data_output_calls ∧ w0.tracker_calls = w.tracker_calls ∧
    w0.generator_calls = w.generator_calls ∧ w0.modifier_calls = w.modifier_calls ∧
    w0.log = w.log ∧ w0.events = w.events ∧
    (∀ (q : Nat) (v : VoxelBufferInternal), w.buffers[q]? = some v → w0.buffers[q]? = some v) := by
  rcases h with ⟨_, hp, _, hw0⟩ | ⟨_, hbuf, hw0⟩
  · subst hp hw0
    refine ⟨by simp, rfl, rfl, rfl, rfl, rfl, rfl, rfl, rfl, rfl, rfl, ?_⟩
    intro q v hq
    have hql : q < w.buffers.length := lt_length_of_getElem_some hq
    simp [List.getElem?_append_left hql, hq]
  · subst hw0
    exact ⟨hbuf, rfl, rfl, rfl, rfl, rfl, rfl, rfl, rfl, rfl, rfl, fun _ _ h => h⟩

/-- Persistence/finish touches neither the volumes, the GPU queue, the maps, the recorded
calls and steps nor any buffer that existed; without a save request it changes nothing. -/
theorem world_after_finish_frame (t : GenerateBlockTask) (w : World)
    (buf : VoxelBufferInternal) :
    (t.world_after_finish w buf).volumes = w.volumes ∧
    (t.world_after_finish w buf).gpu_tasks = w.gpu_tasks ∧
    (t.world_after_finish w buf).maps = w.maps ∧
    (t.world_after_finish w buf).data_output_calls = w.data_output_calls ∧
    (t.world_after_finish w buf).tracker_calls = w.tracker_calls ∧
    (t.world_after_finish w buf).generator_calls = w.generator_calls ∧
    (t.world_after_finish w buf).modifier_calls = w.modifier_calls ∧
    (t.world_after_finish w buf).events = w.events ∧
    (∀ (q : Nat) (v : VoxelBufferInternal),
      w.buffers[q]? = some v → (t.world_after_finish w buf).buffers[q]? = some v) ∧
    (t.saves_generator_output = false → t.world_after_finish w buf = w) := by
  unfold world_after_finish
  cases hs : t.saves_generator_output
  · simp
  · refine ⟨rfl, rfl, rfl, rfl, rfl, rfl, rfl, rfl, ?_, by simp⟩
    intro q v hq
    have hql : q < w.buffers.length := lt_length_of_getElem_some hq
    simp [List.getElem?_append_left hql, hq]

/-- CPU generation touches only the task's buffer and the records of generator and modifier
calls. -/
theorem world_after_cpu_frame (t : GenerateBlockTask) (g : VoxelGenerator) (p : BufferPtr)
    (buf : VoxelBufferInternal) (w : World) :
    (t.world_after_cpu g p buf w).volumes = w.volumes ∧
    (t.world_after_cpu g p buf w).async_io_tasks = w.async_io_tasks ∧
    (t.world_after_cpu g p buf w).gpu_tasks = w.gpu_tasks ∧
    (t.world_after_cpu g p buf w).maps = w.maps ∧
    (t.world_after_cpu g p buf w).data_output_calls = w.data_output_calls ∧
    (t.world_after_cpu g p buf w).tracker_calls = w.tracker_calls ∧
    (t.world_after_cpu g p buf w).log = w.log ∧
    (t.world_after_cpu g p buf w).events = w.events ∧
    (t.world_after_cpu g p buf w).generator_calls =
      w.generator_calls ++ [.generate_block p t.origin_in_voxels t.lod_index] := by
  unfold world_after_cpu
  cases t.data <;> exact ⟨rfl, rfl, rfl, rfl, rfl, rfl, rfl, rfl, rfl⟩

/-- Writing one heap cell leaves the other live cells as they were. -/
theorem getElem_set_other {l : List VoxelBufferInternal} {p q : Nat}
    (b : VoxelBufferInternal) (h : q ≠ p) : (l.set p b)[q]? = l[q]? := by
  simp [List.getElem?_set, Ne.symm h]

/-- C11: a single-pass GPU task at stage 0 with a compute shader, whose buffer pointer is null
or live. If the broad-block shortcut returns true on the working buffer, `run` returns with
the context unchanged (no `STATUS_TAKEN_OUT`), the GPU queue unchanged, the task at stage 2
and `has_run = true`: the world is the one persistence/finish leaves after the shortcut. If
the shortcut returns false, `run` returns with status `STATUS_TAKEN_OUT`, `has_run` and the
stage unchanged, no save queued and exactly one GPU task appended to the queue, whose
consumer is this task and whose only box is the `block_size` cube at the origin. In both
cases the shortcut was called exactly once. -/
theorem C11_run_gpu_stage_zero (ext : Externals) (t : GenerateBlockTask)
    (ctx : ThreadedTaskContext) (w : World) (g : VoxelGenerator) (shader : Nat)
    (p : BufferPtr) (buf : VoxelBufferInternal) (w0 : World)
    (hpath : t.on_direct_path g) (hgpu : t.use_gpu = true) (hstage : t._stage = 0)
    (hshader : g.get_block_rendering_shader = some shader)
    (hready : t.buffer_ready w p buf w0) :
    ((g.generate_broad_block buf t.origin_in_voxels t.lod_index).2 = true →
      ∃ (t' : GenerateBlockTask) (w' : World),
        t.run ext ctx w = .ok (t', ctx, w') ∧
        w'.gpu_tasks = w.gpu_tasks ∧ t'._stage = 2 ∧ t'.has_run = true ∧
        t'.voxels = some p ∧
        w' = t.world_after_finish (t.world_after_broad g p buf w0)
          (g.generate_broad_block buf t.origin_in_voxels t.lod_index).1 ∧
        w'.generator_calls = w.generator_calls ++
          [.generate_broad_block p t.origin_in_voxels t.lod_index]) ∧
    ((g.generate_broad_block buf t.origin_in_voxels t.lod_index).2 = false →
      ∃ (t' : GenerateBlockTask) (gpu_task : GenerateBlockGPUTask) (w' : World),
        t.run ext ctx w = .ok (t', { ctx with status := Status.STATUS_TAKEN_OUT }, w') ∧
        w'.gpu_tasks = w.gpu_tasks ++ [gpu_task] ∧
        gpu_task.consumer_task = some t.self_ptr ∧
        gpu_task.boxes_to_generate =
          [⟨⟨0, 0, 0⟩, ⟨t.block_size, t.block_size, t.block_size⟩⟩] ∧
        t'.has_run = t.has_run ∧ t'._stage = 0 ∧ t'.voxels = some p ∧
        w'.async_io_tasks = w.async_io_tasks ∧
        w'.generator_calls = w.generator_calls ++
          [.generate_broad_block p t.origin_in_voxels t.lod_index]) := by
  obtain ⟨hbuf, -, hio, hgt, -, -, -, hgc, -, -, -, -⟩ := buffer_ready_frame t w p buf w0 hready
  have hrun := run_of_ready ext t ctx w g p buf w0 hpath hready
  constructor
  · intro hbroad
    have h := run_direct_gpu_broad ext { t with voxels := some p } ctx w0 g shader p buf
      hpath.1 hgpu hstage hshader rfl hbuf hbroad
    obtain ⟨-, hgt', -, -, -, hgc', -, -, -, -⟩ := world_after_finish_frame t
      (t.world_after_broad g p buf w0)
      (g.generate_broad_block buf t.origin_in_voxels t.lod_index).1
    refine ⟨{ t with voxels := some p, _stage := 2, has_run := true },
      t.world_after_finish (t.world_after_broad g p buf w0)
        (g.generate_broad_block buf t.origin_in_voxels t.lod_index).1,
      hrun.trans h, hgt'.trans hgt, rfl, rfl, rfl, rfl, hgc'.trans ?_⟩
    simp [world_after_broad, hgc]
  · intro hbroad
    have h := run_direct_gpu_submit ext { t with voxels := some p } ctx w0 g shader p buf
      hpath.1 hgpu hstage hshader rfl hbuf hbroad
    refine ⟨{ t with voxels := some p }, t.gpu_task_built g shader,
      { t.world_after_broad g p buf w0 with
        modifier_calls := w0.modifier_calls ++ t.gpu_modifier_calls,
        gpu_tasks := w0.gpu_tasks ++ [t.gpu_task_built g shader] },
      hrun.trans h, ?_, rfl, rfl, rfl, hstage, rfl, ?_, ?_⟩
    · simp [hgt]
    · simp [world_after_broad, hio]
    · simp [world_after_broad, hgc]

/-- Witness of C11: the fresh GPU task with a generator whose shortcut fails, and with one
whose shortcut succeeds. -/
theorem C11_run_gpu_stage_zero_witness :
    (Examples.gpu_task Examples.generator).on_direct_path Examples.generator ∧
    (∃ (t' : GenerateBlockTask) (gpu_task : GenerateBlockGPUTask) (w' : World),
      (Examples.gpu_task Examples.generator).run Examples.ext Examples.ctx
          (Examples.world Examples.volumes_ok [] Examples.blocks_none) =
        .ok (t', ⟨0, Status.STATUS_TAKEN_OUT⟩, w') ∧
      w'.gpu_tasks = [] ++ [gpu_task] ∧
      gpu_task.consumer_task = some 2 ∧
      gpu_task.boxes_to_generate = [⟨⟨0, 0, 0⟩, ⟨16, 16, 16⟩⟩] ∧
      t'.has_run = false ∧ t'._stage = 0) ∧
    (∃ (t' : GenerateBlockTask) (w' : World),
      (Examples.gpu_task Examples.generator_broad).run Examples.ext Examples.ctx
          (Examples.world Examples.volumes_ok [] Examples.blocks_none) =
        .ok (t', Examples.ctx, w') ∧
      w'.gpu_tasks = [] ∧ t'._stage = 2 ∧ t'.has_run = true) :=
  ⟨⟨rfl, rfl⟩,
   match (C11_run_gpu_stage_zero Examples.ext (Examples.gpu_task Examples.generator)
      Examples.ctx (Examples.world Examples.volumes_ok [] Examples.blocks_none)
      Examples.generator 4 0 ⟨⟨16, 16, 16⟩, []⟩
      { Examples.world Examples.volumes_ok [] Examples.blocks_none with
        buffers := [⟨⟨16, 16, 16⟩, []⟩] }
      ⟨rfl, rfl⟩ rfl rfl rfl (Or.inl ⟨rfl, rfl, rfl, rfl⟩)).2 rfl with
   | ⟨t', gpu_task, w', hrun, hgpu, hconsumer, hboxes, hhas_run, hstage, _⟩ =>
     ⟨t', gpu_task, w', hrun, hgpu, hconsumer, hboxes, hhas_run, hstage⟩,
   match (C11_run_gpu_stage_zero Examples.ext (Examples.gpu_task Examples.generator_broad)
      Examples.ctx (Examples.world Examples.volumes_ok [] Examples.blocks_none)
      Examples.generator_broad 4 0 ⟨⟨16, 16, 16⟩, []⟩
      { Examples.world Examples.volumes_ok [] Examples.blocks_none with
        buffers := [⟨⟨16, 16, 16⟩, []⟩] }
      ⟨rfl, rfl⟩ rfl rfl rfl (Or.inl ⟨rfl, rfl, rfl, rfl⟩)).1 rfl with
   | ⟨t', w', hrun, hgpu, hstage, hhas_run, _⟩ => ⟨t', w', hrun, hgpu, hstage, hhas_run⟩⟩

/-- C12: a single-pass GPU task suspended at stage 0, that is, with a live buffer pointer `p`
(the stage it was suspended at plays no part, `set_gpu_results` overwrites it).
`set_gpu_results r` stores `r` and sets the stage to 1. The next `run` returns with the
context unchanged (no `STATUS_TAKEN_OUT`), the same buffer pointer, the cell behind it holding
the conversion of exactly `r` into the buffer that was there, every other buffer that existed
unchanged, the stage at 2, `has_run = true` and the GPU queue unchanged; the generator is not
called. -/
theorem C12_gpu_results_then_run (ext : Externals) (t : GenerateBlockTask)
    (ctx : ThreadedTaskContext) (w : World) (g : VoxelGenerator)
    (p : BufferPtr) (buf : VoxelBufferInternal) (results : List GenerateBlockGPUTaskResult)
    (hpath : t.on_direct_path g) (hgpu : t.use_gpu = true)
    (hp : t.voxels = some p) (hbuf : w.buffers[p]? = some buf) :
    (t.set_gpu_results results)._gpu_generation_results = results ∧
    (t.set_gpu_results results)._stage = 1 ∧
    (t.set_gpu_results results).voxels = t.voxels ∧
    ∃ (t' : GenerateBlockTask) (w' : World),
      (t.set_gpu_results results).run ext ctx w = .ok (t', ctx, w') ∧
      t'.voxels = some p ∧
      w'.buffers[p]? = some (ext.convert_to_voxel_buffer results buf) ∧
      (∀ (q : Nat) (v : VoxelBufferInternal), q ≠ p → w.buffers[q]? = some v →
        w'.buffers[q]? = some v) ∧
      t'._stage = 2 ∧ t'.has_run = true ∧
      w'.gpu_tasks = w.gpu_tasks ∧ w'.generator_calls = w.generator_calls ∧
      (t.saves_generator_output = false → w'.buffers.length = w.buffers.length) := by
  have hready : (t.set_gpu_results results).buffer_ready w p buf w := Or.inr ⟨hp, hbuf, rfl⟩
  have hrun := run_of_ready ext (t.set_gpu_results results) ctx w g p buf w hpath hready
  have h := run_direct_gpu_convert ext
    { t.set_gpu_results results with voxels := some p } ctx w p buf hgpu rfl rfl hbuf
  obtain ⟨-, hgt, -, -, -, hgc, -, -, hbuffers, hsame⟩ := world_after_finish_frame t
    { w with buffers := w.buffers.set p (ext.convert_to_voxel_buffer results buf) }
    (ext.convert_to_voxel_buffer results buf)
  refine ⟨rfl, rfl, rfl,
    { t with _gpu_generation_results := results, voxels := some p, _stage := 2,
             has_run := true },
    t.world_after_finish
      { w with buffers := w.buffers.set p (ext.convert_to_voxel_buffer results buf) }
      (ext.convert_to_voxel_buffer results buf),
    hrun.trans h, rfl, ?_, ?_, rfl, rfl, hgt, hgc, ?_⟩
  · exact hbuffers p _ (getElem_set_self_of_some _ hbuf)
  · intro q v hq hv
    refine hbuffers q v ?_
    show (w.buffers.set p _)[q]? = some v
    rw [getElem_set_other _ hq]
    exact hv
  · intro hs
    rw [hsame hs]
    simp

/-- Witness of C12: the GPU task suspended at stage 0 with its buffer in cell 0 receives
results and runs again. -/
theorem C12_gpu_results_then_run_witness :
    Examples.gpu_task_suspended.on_direct_path Examples.generator ∧
    Examples.gpu_task_suspended._stage = 0 ∧
    ∃ (t' : GenerateBlockTask) (w' : World),
      (Examples.gpu_task_suspended.set_gpu_results Examples.gpu_results).run Examples.ext
          Examples.ctx (Examples.world Examples.volumes_ok [Examples.buffer] Examples.blocks_none)
        = .ok (t', Examples.ctx, w') ∧
      t'.voxels = some 0 ∧
      w'.buffers[0]? = some (Examples.ext.convert_to_voxel_buffer Examples.gpu_results
        Examples.buffer) ∧
      t'._stage = 2 ∧ t'.has_run = true ∧ w'.gpu_tasks = [] :=
  ⟨⟨rfl, rfl⟩, rfl,
   match (C12_gpu_results_then_run Examples.ext Examples.gpu_task_suspended Examples.ctx
      (Examples.world Examples.volumes_ok [Examples.buffer] Examples.blocks_none)
      Examples.generator 0 Examples.buffer Examples.gpu_results ⟨rfl, rfl⟩ rfl rfl rfl).2.2.2 with
   | ⟨t', w', hrun, hvoxels, hcell, _, hstage, hhas_run, hgpu, _⟩ =>
     ⟨t', w', hrun, hvoxels, hcell, hstage, hhas_run, hgpu⟩⟩

/-- C13: a single-pass CPU task with a non-null generator, whose buffer pointer is null or
live. When the task has no buffer, the working buffer is a new heap cell holding a
`block_size` cube. One `run` returns with the context unchanged (no `STATUS_TAKEN_OUT`), the
task pointing to the working buffer, exactly one generator call recorded (`generate_block` on
that buffer, at the task's origin and LOD), the returned hint stored in `max_lod_hint`, the
modifiers applied once to the generated buffer when volume data is attached (and not at all
otherwise), `has_run = true` and the GPU queue unchanged. When the stream does not save
generator output, no save is queued and a following `apply_result` on a registered volume
with a callback and a valid dependency delivers one record of type `TYPE_GENERATED` with
`dropped = false`. -/
theorem C13_run_cpu (ext : Externals) (t : GenerateBlockTask) (ctx : ThreadedTaskContext)
    (w : World) (g : VoxelGenerator) (p : BufferPtr) (buf : VoxelBufferInternal) (w0 : World)
    (hpath : t.on_direct_path g) (hcpu : t.use_gpu = false)
    (hready : t.buffer_ready w p buf w0) :
    (t.voxels = none → p = w.buffers.length ∧ w.buffers[p]? = none ∧
      buf.size = ⟨t.block_size, t.block_size, t.block_size⟩) ∧
    ∃ (t' : GenerateBlockTask) (w' : World),
      t.run ext ctx w = .ok (t', ctx, w') ∧
      t'.voxels = some p ∧
      w'.generator_calls = w.generator_calls ++
        [.generate_block p t.origin_in_voxels t.lod_index] ∧
      t'.max_lod_hint =
        (g.generate_block buf t.origin_in_voxels t.lod_index).2.max_lod_hint ∧
      (∀ data, t.data = some data →
        w'.modifier_calls = w.modifier_calls ++ [.apply p (t.cpu_modifier_aabb
          (g.generate_block buf t.origin_in_voxels t.lod_index).1)] ∧
        w'.buffers[p]? = some (data.get_modifiers.apply
          (g.generate_block buf t.origin_in_voxels t.lod_index).1
          (t.cpu_modifier_aabb (g.generate_block buf t.origin_in_voxels t.lod_index).1))) ∧
      (t.data = none →
        w'.modifier_calls = w.modifier_calls ∧
        w'.buffers[p]? = some (g.generate_block buf t.origin_in_voxels t.lod_index).1) ∧
      t'.has_run = true ∧ w'.gpu_tasks = w.gpu_tasks ∧
      (t.stream_saves_generator_output = false →
        w'.async_io_tasks = w.async_io_tasks ∧
        ∀ (callbacks : VolumeCallbacks) (callback : Nat),
          w.volumes t.volume_id = some callbacks →
          callbacks.data_output_callback = some callback →
          t.stream_dependency.valid = true →
          ∃ o : BlockDataOutput,
            (t'.apply_result w').data_output_calls =
              w.data_output_calls ++ [⟨callback, callbacks.data, o⟩] ∧
            o.type = BlockDataOutput.Type.TYPE_GENERATED ∧ o.dropped = false ∧
            o.voxels = some p) := by
  obtain ⟨hbuf, hvol, hio, hgt, -, hdc, -, hgc, hmc, -, -, -⟩ :=
    buffer_ready_frame t w p buf w0 hready
  have hrun := run_of_ready ext t ctx w g p buf w0 hpath hready
  obtain ⟨final, hfinal, h⟩ := run_direct_cpu ext { t with voxels := some p } ctx w0 g p buf
    hpath.1 hcpu rfl hbuf
  obtain ⟨hvol1, hio1, hgt1, -, hdc1, -, -, -, hgc1⟩ := world_after_cpu_frame t g p buf w0
  obtain ⟨hvol2, hgt2, -, hdc2, -, hgc2, hmc2, -, hbuffers2, hsame2⟩ :=
    world_after_finish_frame t (t.world_after_cpu g p buf w0) final
  refine ⟨?_, { t with voxels := some p, max_lod_hint := t.cpu_max_lod_hint g buf,
                       has_run := true },
    t.world_after_finish (t.world_after_cpu g p buf w0) final,
    hrun.trans h, rfl, ?_, rfl, ?_, ?_, rfl, ?_, ?_⟩
  · intro hnone
    rcases hready with ⟨-, hp, hb, -⟩ | ⟨hv, -, -⟩
    · subst hp hb
      exact ⟨rfl, by simp, rfl⟩
    · rw [hnone] at hv; cases hv
  · rw [hgc2, hgc1, hgc]
  · intro data hdata
    constructor
    · rw [hmc2]
      simp [world_after_cpu, hdata, hmc]
    · refine hbuffers2 p _ ?_
      simp only [world_after_cpu, hdata]
      exact getElem_set_self_of_some _ hbuf
  · intro hdata
    constructor
    · rw [hmc2]
      simp [world_after_cpu, hdata, hmc]
    · refine hbuffers2 p _ ?_
      simp only [world_after_cpu, hdata]
      exact getElem_set_self_of_some _ hbuf
  · rw [hgt2, hgt1, hgt]
  · intro hstream
    have hsaves : t.saves_generator_output = false := by
      unfold saves_generator_output
      unfold stream_saves_generator_output at hstream
      rw [hstream]; simp
    rw [hsame2 hsaves]
    refine ⟨hio1.trans hio, ?_⟩
    intro callbacks callback hcallbacks hcb hvalid
    have hd := apply_result_data_output_calls
      { t with voxels := some p, max_lod_hint := t.cpu_max_lod_hint g buf, has_run := true }
      (t.world_after_cpu g p buf w0) callbacks callback
      (by rw [hvol1, hvol]; exact hcallbacks) hcb hvalid
    rw [hdc1, hdc] at hd
    refine ⟨_, hd, ?_, rfl, rfl⟩
    show (if t.stream_saves_generator_output = true then _ else _) = _
    simp [hstream]

/-- Witness of C13: the fresh CPU task with volume data, then `apply_result` on a registered
volume. -/
theorem C13_run_cpu_witness :
    Examples.cpu_task.on_direct_path Examples.generator ∧
    Examples.cpu_task.use_gpu = false ∧
    ∃ (t' : GenerateBlockTask) (w' : World),
      Examples.cpu_task.run Examples.ext Examples.ctx
          (Examples.world Examples.volumes_ok [] Examples.blocks_none) =
        .ok (t', Examples.ctx, w') ∧
      t'.voxels = some 0 ∧
      w'.generator_calls = [] ++ [.generate_block 0 Examples.cpu_task.origin_in_voxels 1] ∧
      t'.max_lod_hint = 5 ∧ t'.has_run = true ∧ w'.gpu_tasks = [] ∧
      w'.async_io_tasks = [] ∧
      ∃ o : BlockDataOutput,
        (t'.apply_result w').data_output_calls = [] ++ [⟨3, 9, o⟩] ∧
        o.type = BlockDataOutput.Type.TYPE_GENERATED ∧ o.dropped = false :=
  ⟨⟨rfl, rfl⟩, rfl,
   match (C13_run_cpu Examples.ext Examples.cpu_task Examples.ctx
      (Examples.world Examples.volumes_ok [] Examples.blocks_none)
      Examples.generator 0 ⟨⟨16, 16, 16⟩, []⟩
      { Examples.world Examples.volumes_ok [] Examples.blocks_none with
        buffers := [⟨⟨16, 16, 16⟩, []⟩] }
      ⟨rfl, rfl⟩ rfl (Or.inl ⟨rfl, rfl, rfl, rfl⟩)).2 with
   | ⟨t', w', hrun, hvoxels, hcalls, hhint, _, _, hhas_run, hgpu, hplain⟩ =>
     ⟨t', w', hrun, hvoxels, hcalls, hhint, hhas_run, hgpu, (hplain rfl).1,
      match (hplain rfl).2 ⟨some 3, 9⟩ 3 rfl rfl rfl with
      | ⟨o, hcall, htype, hdropped, _⟩ => ⟨o, hcall, htype, hdropped⟩⟩⟩

/-! ## Outcomes of `run` -/

/-- A null or in-range buffer pointer gives a working buffer. -/
theorem exists_buffer_ready (t : GenerateBlockTask) (w : World)
    (h : ∀ p, t.voxels = some p → p < w.buffers.length) :
    ∃ (p : BufferPtr) (buf : VoxelBufferInternal) (w0 : World), t.buffer_ready w p buf w0 := by
  cases hv : t.voxels with
  | none => exact ⟨_, _, _, Or.inl ⟨hv, rfl, rfl, rfl⟩⟩
  | some p =>
    have hlt := h p hv
    exact ⟨p, w.buffers[p], w, Or.inr ⟨hv, by simp [hlt], rfl⟩⟩

/-- Outcome of `run` on a final block, in closed form. -/
theorem run_multipass_final_eq (ext : Externals) (t : GenerateBlockTask)
    (ctx : ThreadedTaskContext) (w : World) (mg : VoxelGeneratorMultipass) (b : Block)
    (hpath : t.on_multipass_path mg)
    (hentry : (w.maps mg.map).blocks t.position = some (some b))
    (hfinal : b.subpass_index = final_subpass_index ext mg) :
    t.run ext ctx w = .ok ({ t with voxels := some w.buffers.length, has_run := true }, ctx,
      (t.world_after_finish (world_after_copy w mg.map t.position b) b.voxels).emit
        (.spatial_unlock_read mg.map (BoxBounds3i.from_position t.position))) := by
  obtain ⟨w2, hfinish, hrun, -⟩ := run_multipass_final ext t ctx w mg b hpath hentry hfinal
  have heq := run_stream_saving_and_finish_eq { t with voxels := some w.buffers.length }
    (world_after_copy w mg.map t.position b) w.buffers.length b.voxels rfl
    (by simp [world_after_copy])
  rw [heq] at hfinish
  have hw2 : t.world_after_finish (world_after_copy w mg.map t.position b) b.voxels = w2 :=
    congrArg (fun r => r.2) (Except.ok.inj hfinish)
  rw [hrun, ← hw2]

/-- With a null generator `run` prints an error and returns (line 39). -/
theorem run_generator_null (ext : Externals) (t : GenerateBlockTask)
    (ctx : ThreadedTaskContext) (w : World) (hg : t.stream_dependency.generator = none) :
    t.run ext ctx w = .ok (t, ctx, w.print .error_generator_is_null) := by
  unfold run
  simp [hg]

/-- With a multipass generator without passes `run` prints an error and returns (line 43). -/
theorem run_no_pass (ext : Externals) (t : GenerateBlockTask) (ctx : ThreadedTaskContext)
    (w : World) (g : VoxelGenerator) (mg : VoxelGeneratorMultipass)
    (hg : t.stream_dependency.generator = some g) (hm : g.multipass = some mg)
    (hpass : ¬ 0 < mg.pass_count) :
    t.run ext ctx w = .ok (t, ctx, w.print .error_pass_count) := by
  unfold run
  simp [hg, hm, hpass]

/-- From a well-formed state `run` returns, in one of three ways: with `has_run` set and the
context unchanged; with status `STATUS_TAKEN_OUT` and `has_run` unchanged; or with `has_run`,
the context, the maps and the GPU queue unchanged. It never delivers to the volume or the
tracker, and with an invalidated dependency it queues no save. -/
theorem run_outcomes (ext : Externals) (t : GenerateBlockTask) (ctx : ThreadedTaskContext)
    (w : World) (hwf : t.well_formed w) :
    ∃ (t' : GenerateBlockTask) (ctx' : ThreadedTaskContext) (w' : World),
      t.run ext ctx w = .ok (t', ctx', w') ∧
      (t.stream_dependency.valid = false → w'.async_io_tasks = w.async_io_tasks) ∧
      ((t'.has_run = true ∧ ctx' = ctx) ∨
       (ctx'.status = Status.STATUS_TAKEN_OUT ∧ t'.has_run = t.has_run) ∨
       (t'.has_run = t.has_run ∧ ctx' = ctx ∧ w'.maps = w.maps ∧
         w'.gpu_tasks = w.gpu_tasks)) := by
  obtain ⟨hptr, hentry⟩ := hwf
  have hsaves : ∀ (u : GenerateBlockTask), u.stream_dependency = t.stream_dependency →
      t.stream_dependency.valid = false → u.saves_generator_output = false := by
    intro u hu hv
    unfold saves_generator_output
    rw [hu, hv]; rfl
  cases hg : t.stream_dependency.generator with
  | none =>
    exact ⟨_, _, _, run_generator_null ext t ctx w hg, fun _ => rfl,
      Or.inr (Or.inr ⟨rfl, rfl, rfl, rfl⟩)⟩
  | some g =>
    cases hm : g.multipass with
    | some mg =>
      by_cases hpass : 0 < mg.pass_count
      · have hpath : t.on_multipass_path mg := ⟨g, hg, hm, hpass⟩
        cases hb : (w.maps mg.map).blocks t.position with
        | none =>
          exact ⟨_, _, _, run_multipass_absent ext t ctx w mg hpath hb, fun _ => rfl,
            Or.inr (Or.inr ⟨rfl, rfl, rfl, rfl⟩)⟩
        | some entry =>
          cases entry with
          | none => exact absurd hb (hentry g mg hg hm)
          | some b =>
            by_cases hfinal : b.subpass_index = final_subpass_index ext mg
            · refine ⟨_, _, _, run_multipass_final_eq ext t ctx w mg b hpath hb hfinal, ?_,
                Or.inl ⟨rfl, rfl⟩⟩
              intro hv
              rw [(world_after_finish_frame t (world_after_copy w mg.map t.position b)
                b.voxels).2.2.2.2.2.2.2.2.2 (hsaves t rfl hv)]
              rfl
            · by_cases hmask : b.pending_subpass_tasks_mask = 0
              · exact ⟨_, _, _, run_multipass_stalled ext t ctx w mg b hpath hb hfinal hmask,
                  fun _ => rfl, Or.inr (Or.inr ⟨rfl, rfl, rfl, rfl⟩)⟩
              · exact ⟨_, _, _, run_multipass_pending ext t ctx w mg b hpath hb hfinal hmask,
                  fun _ => rfl, Or.inr (Or.inl ⟨rfl, rfl⟩)⟩
      · exact ⟨_, _, _, run_no_pass ext t ctx w g mg hg hm hpass, fun _ => rfl,
          Or.inr (Or.inr ⟨rfl, rfl, rfl, rfl⟩)⟩
    | none =>
      have hpath : t.on_direct_path g := ⟨hg, hm⟩
      obtain ⟨p, buf, w0, hready⟩ := exists_buffer_ready t w hptr
      obtain ⟨hbuf, -, hio, hgt, hmaps, -, -, -, -, -, -, -⟩ :=
        buffer_ready_frame t w p buf w0 hready
      have hrun := run_of_ready ext t ctx w g p buf w0 hpath hready
      cases hgpu : t.use_gpu with
      | false =>
        obtain ⟨final, -, h⟩ := run_direct_cpu ext { t with voxels := some p } ctx w0 g p buf
          hg hgpu rfl hbuf
        refine ⟨_, _, _, hrun.trans h, ?_, Or.inl ⟨rfl, rfl⟩⟩
        intro hv
        have hsame := (world_after_finish_frame t (t.world_after_cpu g p buf w0)
          final).2.2.2.2.2.2.2.2.2 (hsaves t rfl hv)
        have hcpu := (world_after_cpu_frame t g p buf w0).2.1
        exact (congrArg World.async_io_tasks hsame).trans (hcpu.trans hio)
      | true =>
        by_cases h0 : t._stage = 0
        · cases hshader : g.get_block_rendering_shader with
          | none =>
            have h := run_direct_gpu_shader_null ext { t with voxels := some p } ctx w0 g
              hg hgpu h0 hshader
            exact ⟨_, _, _, hrun.trans h, fun _ => hio,
              Or.inr (Or.inr ⟨rfl, rfl, hmaps, hgt⟩)⟩
          | some shader =>
            cases hbroad : (g.generate_broad_block buf t.origin_in_voxels t.lod_index).2 with
            | true =>
              have h := run_direct_gpu_broad ext { t with voxels := some p } ctx w0 g shader
                p buf hg hgpu h0 hshader rfl hbuf hbroad
              refine ⟨_, _, _, hrun.trans h, ?_, Or.inl ⟨rfl, rfl⟩⟩
              intro hv
              have hsame := (world_after_finish_frame t (t.world_after_broad g p buf w0)
                (g.generate_broad_block buf t.origin_in_voxels t.lod_index).1).2.2.2.2.2.2.2.2.2
                (hsaves t rfl hv)
              exact (congrArg World.async_io_tasks hsame).trans hio
            | false =>
              have h := run_direct_gpu_submit ext { t with voxels := some p } ctx w0 g shader
                p buf hg hgpu h0 hshader rfl hbuf hbroad
              exact ⟨_, _, _, hrun.trans h, fun _ => hio, Or.inr (Or.inl ⟨rfl, rfl⟩)⟩
        · by_cases h1 : t._stage = 1
          · have h := run_direct_gpu_convert ext { t with voxels := some p } ctx w0 p buf
              hgpu h1 rfl hbuf
            refine ⟨_, _, _, hrun.trans h, ?_, Or.inl ⟨rfl, rfl⟩⟩
            intro hv
            have hsame := (world_after_finish_frame t
              (w0.write_buffer p (ext.convert_to_voxel_buffer t._gpu_generation_results buf))
              (ext.convert_to_voxel_buffer t._gpu_generation_results buf)).2.2.2.2.2.2.2.2.2
              (hsaves t rfl hv)
            exact (congrArg World.async_io_tasks hsame).trans hio
          · by_cases h2 : t._stage = 2
            · have h := run_direct_gpu_finish ext { t with voxels := some p } ctx w0 p buf
                hgpu h2 rfl hbuf
              refine ⟨_, _, _, hrun.trans h, ?_, Or.inl ⟨rfl, rfl⟩⟩
              intro hv
              have hsame := (world_after_finish_frame t w0 buf).2.2.2.2.2.2.2.2.2
                (hsaves t rfl hv)
              exact (congrArg World.async_io_tasks hsame).trans hio
            · have h3 : 2 < t._stage := by omega
              have h := run_direct_gpu_idle ext { t with voxels := some p } ctx w0 hgpu h3
              exact ⟨_, _, _, hrun.trans h, fun _ => hio,
                Or.inr (Or.inr ⟨rfl, rfl, hmaps, hgt⟩)⟩

/-- C14 as stated fails: the dependency of the CPU task was invalidated before `run`, yet
`run` calls `generate_block` and returns with `has_run = true`. -/
theorem C14_invalidated_task_generates_counterexample :
    Examples.cpu_task_invalidated.stream_dependency.valid = false ∧
    ∃ (t' : GenerateBlockTask) (w' : World),
      Examples.cpu_task_invalidated.run Examples.ext Examples.ctx
          (Examples.world Examples.volumes_ok [] Examples.blocks_none) =
        .ok (t', Examples.ctx, w') ∧
      t'.has_run = true ∧
      w'.generator_calls = [.generate_block 0 ⟨32, 64, 96⟩ 1] :=
  ⟨rfl, _, _, rfl, rfl, rfl⟩

/-- C14 as amended: for a task whose dependency has been invalidated, `is_cancelled` is true,
and a `run` invoked nonetheless returns without queueing a save. `run` does not read the
validity flag before generating: on the CPU path it calls `generate_block` once and returns
with `has_run = true`; on the GPU path at stage 0 with a shader it calls the broad-block
shortcut and, when that fails, queues the GPU task. -/
theorem C14_invalidated_run (ext : Externals) (t : GenerateBlockTask)
    (ctx : ThreadedTaskContext) (w : World)
    (hvalid : t.stream_dependency.valid = false) (hwf : t.well_formed w) :
    t.is_cancelled = true ∧
    (∃ (t' : GenerateBlockTask) (ctx' : ThreadedTaskContext) (w' : World),
      t.run ext ctx w = .ok (t', ctx', w') ∧ w'.async_io_tasks = w.async_io_tasks) ∧
    (∀ (g : VoxelGenerator) (p : BufferPtr) (buf : VoxelBufferInternal) (w0 : World),
      t.on_direct_path g → t.use_gpu = false → t.buffer_ready w p buf w0 →
      ∃ (t' : GenerateBlockTask) (w' : World),
        t.run ext ctx w = .ok (t', ctx, w') ∧ t'.has_run = true ∧
        w'.generator_calls = w.generator_calls ++
          [.generate_block p t.origin_in_voxels t.lod_index] ∧
        w'.async_io_tasks = w.async_io_tasks) ∧
    (∀ (g : VoxelGenerator) (shader : Nat) (p : BufferPtr) (buf : VoxelBufferInternal)
        (w0 : World),
      t.on_direct_path g → t.use_gpu = true → t._stage = 0 →
      g.get_block_rendering_shader = some shader → t.buffer_ready w p buf w0 →
      (g.generate_broad_block buf t.origin_in_voxels t.lod_index).2 = false →
      ∃ (t' : GenerateBlockTask) (w' : World),
        t.run ext ctx w = .ok (t', { ctx with status := Status.STATUS_TAKEN_OUT }, w') ∧
        w'.generator_calls = w.generator_calls ++
          [.generate_broad_block p t.origin_in_voxels t.lod_index] ∧
        w'.gpu_tasks = w.gpu_tasks ++ [t.gpu_task_built g shader]) := by
  have hsaves : t.saves_generator_output = false := by
    unfold saves_generator_output
    rw [hvalid]; rfl
  refine ⟨by simp [is_cancelled, hvalid], ?_, ?_, ?_⟩
  · obtain ⟨t', ctx', w', hrun, hio, -⟩ := run_outcomes ext t ctx w hwf
    exact ⟨t', ctx', w', hrun, hio hvalid⟩
  · intro g p buf w0 hpath hcpu hready
    obtain ⟨hbuf, -, hio, -, -, -, -, hgc, -, -, -, -⟩ := buffer_ready_frame t w p buf w0 hready
    have hrun := run_of_ready ext t ctx w g p buf w0 hpath hready
    obtain ⟨final, -, h⟩ := run_direct_cpu ext { t with voxels := some p } ctx w0 g p buf
      hpath.1 hcpu rfl hbuf
    have hsame := (world_after_finish_frame t (t.world_after_cpu g p buf w0)
      final).2.2.2.2.2.2.2.2.2 hsaves
    obtain ⟨-, hio1, -, -, -, -, -, -, hgc1⟩ := world_after_cpu_frame t g p buf w0
    refine ⟨_, _, hrun.trans h, rfl, ?_, ?_⟩
    · exact (congrArg World.generator_calls hsame).trans (hgc1.trans (by rw [hgc]))
    · exact (congrArg World.async_io_tasks hsame).trans (hio1.trans hio)
  · intro g shader p buf w0 hpath hgpu hstage hshader hready hbroad
    obtain ⟨hbuf, -, -, hgt, -, -, -, hgc, -, -, -, -⟩ := buffer_ready_frame t w p buf w0 hready
    have hrun := run_of_ready ext t ctx w g p buf w0 hpath hready
    have h := run_direct_gpu_submit ext { t with voxels := some p } ctx w0 g shader p buf
      hpath.1 hgpu hstage hshader rfl hbuf hbroad
    refine ⟨_, _, hrun.trans h, ?_, ?_⟩
    · rw [← hgc]
      rfl
    · rw [← hgt]
      rfl

/-- Witness of the amended C14: the invalidated CPU task on an empty world. -/
theorem C14_invalidated_run_witness :
    Examples.cpu_task_invalidated.stream_dependency.valid = false ∧
    Examples.cpu_task_invalidated.well_formed
      (Examples.world Examples.volumes_ok [] Examples.blocks_none) ∧
    Examples.cpu_task_invalidated.is_cancelled = true ∧
    ∃ (t' : GenerateBlockTask) (ctx' : ThreadedTaskContext) (w' : World),
      Examples.cpu_task_invalidated.run Examples.ext Examples.ctx
          (Examples.world Examples.volumes_ok [] Examples.blocks_none) = .ok (t', ctx', w') ∧
      w'.async_io_tasks = [] :=
  ⟨rfl, ⟨(by intro p h; cases h), (by intro g mg h1 h2; cases h1; cases h2)⟩,
   (C14_invalidated_run Examples.ext Examples.cpu_task_invalidated Examples.ctx
      (Examples.world Examples.volumes_ok [] Examples.blocks_none) rfl
      ⟨(by intro p h; cases h), (by intro g mg h1 h2; cases h1; cases h2)⟩).1,
   (C14_invalidated_run Examples.ext Examples.cpu_task_invalidated Examples.ctx
      (Examples.world Examples.volumes_ok [] Examples.blocks_none) rfl
      ⟨(by intro p h; cases h), (by intro g mg h1 h2; cases h1; cases h2)⟩).2.1⟩

/-- C16 as stated fails: with a null generator, and on the GPU path with a null compute
shader, `run` does not crash; it returns normally with an error printed, the status left at
`STATUS_COMPLETE` and `has_run` false, as after a drop. -/
theorem C16_null_generator_returns_counterexample :
    Examples.task_no_generator.stream_dependency.generator = none ∧
    (∃ w', Examples.task_no_generator.run Examples.ext Examples.ctx
          (Examples.world Examples.volumes_ok [] Examples.blocks_none) =
        .ok (Examples.task_no_generator, Examples.ctx, w') ∧
      w'.log = [LogEntry.error_generator_is_null]) ∧
    Examples.generator_no_shader.get_block_rendering_shader = none ∧
    (∃ t' w', (Examples.gpu_task Examples.generator_no_shader).run Examples.ext Examples.ctx
          (Examples.world Examples.volumes_ok [] Examples.blocks_none) =
        .ok (t', Examples.ctx, w') ∧
      t'.has_run = false ∧ w'.gpu_tasks = [] ∧
      w'.log = [LogEntry.error_generator_shader_is_null]) :=
  ⟨rfl, ⟨_, rfl, rfl⟩, rfl, ⟨_, _, rfl, rfl, rfl, rfl⟩⟩

/-- C16 as amended: with a null generator `run` prints an error and returns normally with the
task, the context and the rest of the world unchanged; on the GPU path at stage 0 with a null
compute shader `run` prints an error and returns normally with the context, `has_run`, the
stage and both queues unchanged (the task keeps the buffer of lines 127-130). Neither is a
fatal assertion. -/
theorem C16_configuration_error_returns (ext : Externals) (t : GenerateBlockTask)
    (ctx : ThreadedTaskContext) (w : World) :
    (t.stream_dependency.generator = none →
      t.run ext ctx w = .ok (t, ctx, { w with log := w.log ++ [.error_generator_is_null] })) ∧
    (∀ (g : VoxelGenerator) (p : BufferPtr) (buf : VoxelBufferInternal) (w0 : World),
      t.on_direct_path g → t.use_gpu = true → t._stage = 0 →
      g.get_block_rendering_shader = none → t.buffer_ready w p buf w0 →
      ∃ (t' : GenerateBlockTask) (w' : World),
        t.run ext ctx w = .ok (t', ctx, w') ∧
        t'.has_run = t.has_run ∧ t'._stage = 0 ∧ t'.voxels = some p ∧
        w'.log = w.log ++ [.error_generator_shader_is_null] ∧
        w'.gpu_tasks = w.gpu_tasks ∧ w'.async_io_tasks = w.async_io_tasks ∧
        w'.generator_calls = w.generator_calls ∧ w'.maps = w.maps) := by
  constructor
  · intro hg
    exact run_generator_null ext t ctx w hg
  · intro g p buf w0 hpath hgpu hstage hshader hready
    obtain ⟨-, -, hio, hgt, hmaps, -, -, hgc, -, hlog, -, -⟩ :=
      buffer_ready_frame t w p buf w0 hready
    have hrun := run_of_ready ext t ctx w g p buf w0 hpath hready
    have h := run_direct_gpu_shader_null ext { t with voxels := some p } ctx w0 g
      hpath.1 hgpu hstage hshader
    refine ⟨_, _, hrun.trans h, rfl, hstage, rfl, ?_, hgt, hio, hgc, hmaps⟩
    show w0.log ++ _ = _
    rw [hlog]

/-- Witness of the amended C16: the task without generator, and the GPU task whose generator
has no shader. -/
theorem C16_configuration_error_returns_witness :
    Examples.task_no_generator.stream_dependency.generator = none ∧
    Examples.task_no_generator.run Examples.ext Examples.ctx
        (Examples.world Examples.volumes_ok [] Examples.blocks_none) =
      .ok (Examples.task_no_generator, Examples.ctx,
        { Examples.world Examples.volumes_ok [] Examples.blocks_none with
          log := [] ++ [.error_generator_is_null] }) ∧
    ∃ (t' : GenerateBlockTask) (w' : World),
      (Examples.gpu_task Examples.generator_no_shader).run Examples.ext Examples.ctx
          (Examples.world Examples.volumes_ok [] Examples.blocks_none) =
        .ok (t', Examples.ctx, w') ∧
      t'.has_run = false ∧ w'.log = [] ++ [.error_generator_shader_is_null] ∧
      w'.gpu_tasks = [] :=
  ⟨rfl,
   (C16_configuration_error_returns Examples.ext Examples.task_no_generator Examples.ctx
      (Examples.world Examples.volumes_ok [] Examples.blocks_none)).1 rfl,
   match (C16_configuration_error_returns Examples.ext
      (Examples.gpu_task Examples.generator_no_shader) Examples.ctx
      (Examples.world Examples.volumes_ok [] Examples.blocks_none)).2
      Examples.generator_no_shader 0 ⟨⟨16, 16, 16⟩, []⟩
      { Examples.world Examples.volumes_ok [] Examples.blocks_none with
        buffers := [⟨⟨16, 16, 16⟩, []⟩] }
      ⟨rfl, rfl⟩ rfl rfl rfl (Or.inl ⟨rfl, rfl, rfl, rfl⟩) with
   | ⟨t', w', hrun, hhas_run, _, _, hlog, hgpu, _⟩ => ⟨t', w', hrun, hhas_run, hlog, hgpu⟩⟩

/-- C17: an invocation of `run` entered with `has_run` false and a status other than
`STATUS_TAKEN_OUT`, from a well-formed state (buffer pointer null or live, no null entry in
the multipass map), returns, and ends in exactly one of three outcomes: completed (`has_run`
true, status not `STATUS_TAKEN_OUT`), suspended (status `STATUS_TAKEN_OUT`, `has_run` false)
or dropped (`has_run` false, status not `STATUS_TAKEN_OUT`, maps and GPU queue unchanged). It
never both finishes and marks itself taken out. -/
theorem C17_run_three_outcomes (ext : Externals) (t : GenerateBlockTask)
    (ctx : ThreadedTaskContext) (w : World)
    (hrun : t.has_run = false) (hctx : ctx.status ≠ Status.STATUS_TAKEN_OUT)
    (hwf : t.well_formed w) :
    ∃ (t' : GenerateBlockTask) (ctx' : ThreadedTaskContext) (w' : World),
      t.run ext ctx w = .ok (t', ctx', w') ∧
      (completed t' ctx' ∨ suspended t' ctx' ∨ dropped w t' ctx' w') ∧
      ¬ (completed t' ctx' ∧ suspended t' ctx') ∧
      ¬ (completed t' ctx' ∧ dropped w t' ctx' w') ∧
      ¬ (suspended t' ctx' ∧ dropped w t' ctx' w') ∧
      ¬ (t'.has_run = true ∧ ctx'.status = Status.STATUS_TAKEN_OUT) := by
  obtain ⟨t', ctx', w', h, -, hcases⟩ := run_outcomes ext t ctx w hwf
  refine ⟨t', ctx', w', h, ?_, ?_, ?_, ?_, ?_⟩
  · rcases hcases with ⟨h1, h2⟩ | ⟨h1, h2⟩ | ⟨h1, h2, h3, h4⟩
    · exact Or.inl ⟨h1, by rw [h2]; exact hctx⟩
    · exact Or.inr (Or.inl ⟨h1, by rw [h2]; exact hrun⟩)
    · exact Or.inr (Or.inr ⟨by rw [h1]; exact hrun, by rw [h2]; exact hctx, h3, h4⟩)
  · rintro ⟨⟨h1, -⟩, ⟨-, h2⟩⟩
    rw [h1] at h2; cases h2
  · rintro ⟨⟨h1, -⟩, ⟨h2, -⟩⟩
    rw [h1] at h2; cases h2
  · rintro ⟨⟨h1, -⟩, ⟨-, h2, -⟩⟩
    exact h2 h1
  · rintro ⟨h1, h2⟩
    rcases hcases with ⟨-, h3⟩ | ⟨-, h3⟩ | ⟨-, h3, -⟩
    · rw [h3] at h2; exact hctx h2
    · rw [h3, hrun] at h1; cases h1
    · rw [h3] at h2; exact hctx h2

/-- Witness of C17: the fresh CPU task completes. -/
theorem C17_run_three_outcomes_witness :
    Examples.cpu_task.has_run = false ∧
    Examples.ctx.status ≠ Status.STATUS_TAKEN_OUT ∧
    Examples.cpu_task.well_formed (Examples.world Examples.volumes_ok [] Examples.blocks_none) ∧
    ∃ (t' : GenerateBlockTask) (ctx' : ThreadedTaskContext) (w' : World),
      Examples.cpu_task.run Examples.ext Examples.ctx
          (Examples.world Examples.volumes_ok [] Examples.blocks_none) = .ok (t', ctx', w') ∧
      (completed t' ctx' ∨ suspended t' ctx' ∨
        dropped (Examples.world Examples.volumes_ok [] Examples.blocks_none) t' ctx' w') ∧
      ¬ (t'.has_run = true ∧ ctx'.status = Status.STATUS_TAKEN_OUT) :=
  ⟨rfl, (by decide),
   ⟨(by intro p h; cases h), (by intro g mg h1 h2; cases h1; cases h2)⟩,
   match C17_run_three_outcomes Examples.ext Examples.cpu_task Examples.ctx
      (Examples.world Examples.volumes_ok [] Examples.blocks_none) rfl (by decide)
      ⟨(by intro p h; cases h), (by intro g mg h1 h2; cases h1; cases h2)⟩ with
   | ⟨t', ctx', w', hrun, hone, _, _, _, hnever⟩ => ⟨t', ctx', w', hrun, hone, hnever⟩⟩

/-! ## Locks on the multipass path -/

/-- The steps recorded on each of the four multipass paths keep the lock discipline. -/
theorem lock_discipline_paths (map : MapPtr) (position : Vector3i) (task : TaskPtr)
    (dst : BufferPtr) :
    lock_discipline (events_absent map position) = true ∧
    lock_discipline (events_stalled map position) = true ∧
    lock_discipline (events_pending map position task) = true ∧
    lock_discipline (events_copy map position dst ++
      [.spatial_unlock_read map (BoxBounds3i.from_position position)]) = true := by
  simp [lock_discipline, steps_hold, lock_discipline_step, locks_held, LocksHeld.step,
    LocksHeld.none, events_absent, events_stalled, events_pending, events_copy]

/-- C18: on the multipass path, from a state whose map entry is not a null pointer, `run`
returns and the steps it records start with the read lock of the box at the task's
position, then the map mutex, the lookup and the release of the mutex; the mutex is held at
no other step; the block is inspected, registered on and copied from with the mutex released
and the read lock held; and at the end of the record no lock is held, on each of the four
paths (entry absent, block stalled, registration with `STATUS_TAKEN_OUT`, copy of a final
block). -/
theorem C18_run_multipass_lock_trace (ext : Externals) (t : GenerateBlockTask)
    (ctx : ThreadedTaskContext) (w : World) (mg : VoxelGeneratorMultipass)
    (hpath : t.on_multipass_path mg)
    (hentry : (w.maps mg.map).blocks t.position ≠ some none) :
    ∃ (t' : GenerateBlockTask) (ctx' : ThreadedTaskContext) (w' : World) (evs : List Event),
      t.run ext ctx w = .ok (t', ctx', w') ∧
      w'.events = w.events ++ evs ∧
      evs.take 4 =
        [.spatial_lock_read mg.map (BoxBounds3i.from_position t.position),
         .mutex_lock mg.map, .blocks_find mg.map t.position, .mutex_unlock mg.map] ∧
      lock_discipline evs = true ∧
      locks_held LocksHeld.none evs = LocksHeld.none ∧
      (evs = events_absent mg.map t.position ∨
       evs = events_stalled mg.map t.position ∨
       (evs = events_pending mg.map t.position t.self_ptr ∧
         ctx'.status = Status.STATUS_TAKEN_OUT) ∨
       evs = events_copy mg.map t.position w.buffers.length ++
         [.spatial_unlock_read mg.map (BoxBounds3i.from_position t.position)]) := by
  obtain ⟨habsent, hstalled, hpending, hcopy⟩ :=
    lock_discipline_paths mg.map t.position t.self_ptr w.buffers.length
  cases hb : (w.maps mg.map).blocks t.position with
  | none =>
    refine ⟨_, _, _, events_absent mg.map t.position,
      run_multipass_absent ext t ctx w mg hpath hb, rfl, rfl, habsent, ?_, Or.inl rfl⟩
    simp [locks_held, LocksHeld.step, LocksHeld.none, events_absent]
  | some entry =>
    cases entry with
    | none => exact absurd hb hentry
    | some b =>
      by_cases hfinal : b.subpass_index = final_subpass_index ext mg
      · refine ⟨_, _, _, events_copy mg.map t.position w.buffers.length ++
            [.spatial_unlock_read mg.map (BoxBounds3i.from_position t.position)],
          run_multipass_final_eq ext t ctx w mg b hpath hb hfinal, ?_, (by simp [events_copy]),
          hcopy, ?_, Or.inr (Or.inr (Or.inr rfl))⟩
        · show (t.world_after_finish (world_after_copy w mg.map t.position b) b.voxels).events
            ++ _ = _
          rw [(world_after_finish_frame t (world_after_copy w mg.map t.position b)
            b.voxels).2.2.2.2.2.2.2.1]
          simp [world_after_copy]
        · simp [locks_held, LocksHeld.step, LocksHeld.none, events_copy]
      · by_cases hmask : b.pending_subpass_tasks_mask = 0
        · refine ⟨_, _, _, events_stalled mg.map t.position,
            run_multipass_stalled ext t ctx w mg b hpath hb hfinal hmask, rfl, rfl, hstalled,
            ?_, Or.inr (Or.inl rfl)⟩
          simp [locks_held, LocksHeld.step, LocksHeld.none, events_stalled]
        · refine ⟨_, _, _, events_pending mg.map t.position t.self_ptr,
            run_multipass_pending ext t ctx w mg b hpath hb hfinal hmask, rfl, rfl, hpending,
            ?_, Or.inr (Or.inr (Or.inl ⟨rfl, rfl⟩))⟩
          simp [locks_held, LocksHeld.step, LocksHeld.none, events_pending]

/-- Witness of C18: the task on a block it has to wait for. -/
theorem C18_run_multipass_lock_trace_witness :
    Examples.task.on_multipass_path ⟨2, 0⟩ ∧
    ((Examples.world Examples.volumes_ok [] (Examples.blocks_with Examples.block_pending)).maps
      0).blocks Examples.task.position ≠ some none ∧
    ∃ (t' : GenerateBlockTask) (ctx' : ThreadedTaskContext) (w' : World) (evs : List Event),
      Examples.task.run Examples.ext Examples.ctx
          (Examples.world Examples.volumes_ok [] (Examples.blocks_with Examples.block_pending))
        = .ok (t', ctx', w') ∧
      w'.events = [] ++ evs ∧
      lock_discipline evs = true ∧
      locks_held LocksHeld.none evs = LocksHeld.none :=
  ⟨⟨Examples.multipass_generator, rfl, rfl, by decide⟩, (by decide),
   match C18_run_multipass_lock_trace Examples.ext Examples.task Examples.ctx
      (Examples.world Examples.volumes_ok [] (Examples.blocks_with Examples.block_pending))
      ⟨2, 0⟩ ⟨Examples.multipass_generator, rfl, rfl, by decide⟩ (by decide) with
   | ⟨t', ctx', w', evs, hrun, hevents, _, hdiscipline, hreleased, _⟩ =>
     ⟨t', ctx', w', evs, hrun, hevents, hdiscipline, hreleased⟩⟩

/-- C15 as stated fails: when `run` registers task 2 on the pending block at the origin, the
write of `final_pending_task` is in the record of steps and no write lock is held when it
happens. -/
theorem C15_registration_without_write_lock_counterexample :
    ∃ w', Examples.task.run Examples.ext Examples.ctx
          (Examples.world Examples.volumes_ok [] (Examples.blocks_with Examples.block_pending))
        = .ok (Examples.task, ⟨0, Status.STATUS_TAKEN_OUT⟩, w') ∧
      Event.set_final_pending_task 0 ⟨0, 0, 0⟩ 2 ∈ w'.events ∧
      steps_hold write_under_write_lock LocksHeld.none w'.events = false :=
  ⟨_, rfl, by decide, by decide⟩

/-- C15 as amended: when `run` registers the task as the waiting consumer of a block, the write
of `final_pending_task` happens while `run` holds the spatial read lock of the box at the
task's position, and nothing else: no write lock (the record of steps contains none) and not
the map mutex, which was released after the lookup. -/
theorem C15_registration_under_read_lock (ext : Externals) (t : GenerateBlockTask)
    (ctx : ThreadedTaskContext) (w : World) (mg : VoxelGeneratorMultipass) (b : Block)
    (hpath : t.on_multipass_path mg)
    (hentry : (w.maps mg.map).blocks t.position = some (some b))
    (hnot_final : b.subpass_index ≠ final_subpass_index ext mg)
    (hmask : b.pending_subpass_tasks_mask ≠ 0) :
    ∃ w', t.run ext ctx w = .ok (t, { ctx with status := Status.STATUS_TAKEN_OUT }, w') ∧
      w'.events = w.events ++ events_pending mg.map t.position t.self_ptr ∧
      Event.set_final_pending_task mg.map t.position t.self_ptr ∈
        events_pending mg.map t.position t.self_ptr ∧
      locks_held LocksHeld.none ((events_pending mg.map t.position t.self_ptr).take 5) =
        ⟨[(mg.map, BoxBounds3i.from_position t.position)], [], []⟩ ∧
      steps_hold write_under_read_lock_only LocksHeld.none
        (events_pending mg.map t.position t.self_ptr) = true ∧
      steps_hold write_under_write_lock LocksHeld.none
        (events_pending mg.map t.position t.self_ptr) = false ∧
      (∀ m box, Event.spatial_lock_write m box ∉
        events_pending mg.map t.position t.self_ptr) := by
  refine ⟨_, run_multipass_pending ext t ctx w mg b hpath hentry hnot_final hmask, rfl,
    ?_, ?_, ?_, ?_, ?_⟩
  · simp [events_pending]
  · simp [locks_held, LocksHeld.step, LocksHeld.none, events_pending]
  · simp [steps_hold, write_under_read_lock_only, LocksHeld.step, LocksHeld.none,
      events_pending]
  · simp [steps_hold, write_under_write_lock, LocksHeld.step, LocksHeld.none, events_pending]
  · simp [events_pending]

/-- Witness of the amended C15: the task on a block it has to wait for. -/
theorem C15_registration_under_read_lock_witness :
    Examples.task.on_multipass_path ⟨2, 0⟩ ∧
    Examples.block_pending.subpass_index ≠ final_subpass_index Examples.ext ⟨2, 0⟩ ∧
    Examples.block_pending.pending_subpass_tasks_mask ≠ 0 ∧
    ∃ w', Examples.task.run Examples.ext Examples.ctx
          (Examples.world Examples.volumes_none [] (Examples.blocks_with Examples.block_pending))
        = .ok (Examples.task, ⟨0, Status.STATUS_TAKEN_OUT⟩, w') ∧
      w'.events = [] ++ events_pending 0 ⟨0, 0, 0⟩ 2 ∧
      steps_hold write_under_read_lock_only LocksHeld.none (events_pending 0 ⟨0, 0, 0⟩ 2)
        = true ∧
      steps_hold write_under_write_lock LocksHeld.none (events_pending 0 ⟨0, 0, 0⟩ 2) = false :=
  ⟨⟨Examples.multipass_generator, rfl, rfl, by decide⟩, (by decide), (by decide),
   match C15_registration_under_read_lock Examples.ext Examples.task Examples.ctx
      (Examples.world Examples.volumes_none [] (Examples.blocks_with Examples.block_pending))
      ⟨2, 0⟩ Examples.block_pending ⟨Examples.multipass_generator, rfl, rfl, by decide⟩ rfl
      (by decide) (by decide) with
   | ⟨w', hrun, hevents, _, _, hread, hwrite, _⟩ => ⟨w', hrun, hevents, hread, hwrite⟩⟩

/-! ## Origin and extent -/

/-- Wrapping before a product does not change the wrapped product. -/
theorem wrap32_mul_wrap32 (a k : Int) : wrap32 (wrap32 a * k) = wrap32 (a * k) := by
  have h : wrap32 a = a + 2 ^ 32 * (-((a + 2 ^ 31) / 2 ^ 32)) := by
    unfold wrap32
    omega
  have h2 : wrap32 a * k + 2 ^ 31 =
      (a * k + 2 ^ 31) + 2 ^ 32 * (-((a + 2 ^ 31) / 2 ^ 32) * k) := by
    rw [h]; ring
  unfold wrap32 at h2 ⊢
  rw [h2, Int.add_mul_emod_self_left]

/-- A value in the 32 bit range is not changed by wrapping. -/
theorem wrap32_of_range (i : Int) (h : -2 ^ 31 ≤ i ∧ i < 2 ^ 31) : wrap32 i = i := by
  unfold wrap32
  omega

/-- The origin computed on lines 158 and 206 is the product `position * 2 ^ lod * block_size`
on each axis, in 32 bit arithmetic, for a LOD below 32, where the shift is defined. -/
theorem origin_in_voxels_eq_product (t : GenerateBlockTask) (hlod : t.lod_index < 32) :
    t.origin_in_voxels = t.origin_product := by
  simp [origin_in_voxels, origin_product, Vector3i.shl, Vector3i.mul, wrap32_mul_wrap32, hlod]

/-- The extent computed on lines 179 and 216 for the `block_size` cube is
`block_size * 2 ^ lod` on each axis, in 32 bit arithmetic, for a LOD below 32. -/
theorem extent_eq_product (t : GenerateBlockTask) (hlod : t.lod_index < 32) :
    (Vector3iUtil.create t.block_size).shl t.lod_index = t.extent_product := by
  simp [extent_product, Vector3i.shl, Vector3iUtil.create, hlod]

/-- C19 as stated fails: at position (2 ^ 30, 0, 0), LOD 2 and block size 16 the origin both
paths compute has x = 0, not `2 ^ 30 * 2 ^ 2 * 16`, which does not fit in 32 bits. -/
theorem C19_origin_wraps_counterexample :
    Examples.far_task.position.x = 2 ^ 30 ∧ Examples.far_task.lod_index = 2 ∧
    Examples.far_task.block_size = 16 ∧
    Examples.far_task.origin_in_voxels.x = 0 ∧
    Examples.far_task.origin_in_voxels.x ≠
      Examples.far_task.position.x * 2 ^ Examples.far_task.lod_index *
        Examples.far_task.block_size := by
  decide

/-- C19 as amended: for every position, every block size and every LOD below 32 (from 32 on
the shift of the source is undefined) the origin both paths compute is, on each axis,
`position * 2 ^ lod_index * block_size` in 32 bit arithmetic (the exact product when it fits
in 32 bits). `run_cpu_generation` passes it to `generate_block` and `run_gpu_task`
passes it to the broad-block shortcut and to the GPU task. When volume data is attached, the
CPU path, if the generated buffer is the `block_size` cube, and the GPU path, when it
submits, give the modifiers the same box: that origin, with extent
`block_size * 2 ^ lod_index` on each axis. -/
theorem C19_same_origin_and_extent (t : GenerateBlockTask) (ctx : ThreadedTaskContext)
    (w : World) (g : VoxelGenerator) (shader : Nat) (p : BufferPtr)
    (buf : VoxelBufferInternal)
    (hlod : t.lod_index < 32)
    (hg : t.stream_dependency.generator = some g)
    (hshader : g.get_block_rendering_shader = some shader)
    (hp : t.voxels = some p) (hbuf : w.buffers[p]? = some buf) :
    t.origin_in_voxels = t.origin_product ∧
    (∀ i : Int, -2 ^ 31 ≤ i ∧ i < 2 ^ 31 → wrap32 i = i) ∧
    (∃ (tc : GenerateBlockTask) (wc : World),
      t.run_cpu_generation w = .ok (tc, wc) ∧
      wc.generator_calls = w.generator_calls ++
        [.generate_block p t.origin_product t.lod_index] ∧
      (∀ data, t.data = some data →
        (g.generate_block buf t.origin_product t.lod_index).1.get_size =
          Vector3iUtil.create t.block_size →
        wc.modifier_calls = w.modifier_calls ++
          [.apply p ⟨to_vec3 t.origin_product, to_vec3 t.extent_product⟩])) ∧
    (∃ (tg : GenerateBlockTask) (cg : ThreadedTaskContext) (wg : World),
      t.run_gpu_task ctx w = .ok (tg, cg, wg) ∧
      wg.generator_calls = w.generator_calls ++
        [.generate_broad_block p t.origin_product t.lod_index] ∧
      ((g.generate_broad_block buf t.origin_product t.lod_index).2 = false →
        (∃ gpu_task, wg.gpu_tasks = w.gpu_tasks ++ [gpu_task] ∧
          gpu_task.origin_in_voxels = t.origin_product ∧
          gpu_task.lod_index = t.lod_index) ∧
        ∀ data, t.data = some data →
          wg.modifier_calls = w.modifier_calls ++
            [.apply_for_gpu_rendering ⟨to_vec3 t.origin_product, to_vec3 t.extent_product⟩
              .TYPE_BLOCK])) := by
  have horigin := origin_in_voxels_eq_product t hlod
  have hextent := extent_eq_product t hlod
  refine ⟨horigin, wrap32_of_range, ?_, ?_⟩
  · refine ⟨_, _, run_cpu_generation_eq t w g p buf hg hp hbuf, ?_, ?_⟩
    · rw [(world_after_cpu_frame t g p buf w).2.2.2.2.2.2.2.2, horigin]
    · intro data hdata hcube
      rw [← horigin] at hcube
      simp only [world_after_cpu, hdata, cpu_modifier_aabb, hcube]
      rw [horigin, hextent]
  · cases hbroad : (g.generate_broad_block buf t.origin_in_voxels t.lod_index).2 with
    | true =>
      refine ⟨_, _, _, run_gpu_task_broad t ctx w g shader p buf hg hshader hp hbuf hbroad,
        ?_, ?_⟩
      · simp only [world_after_broad, horigin]
      · intro hfalse
        rw [← horigin, hbroad] at hfalse
        cases hfalse
    | false =>
      refine ⟨_, _, _, run_gpu_task_submit t ctx w g shader p buf hg hshader hp hbuf hbroad,
        ?_, ?_⟩
      · simp only [world_after_broad, horigin]
      · intro _
        refine ⟨⟨t.gpu_task_built g shader, rfl, horigin, rfl⟩, ?_⟩
        intro data hdata
        simp only [gpu_modifier_calls, hdata, gpu_modifier_aabb, horigin, hextent]

/-- Witness of C19: the task at position (1, 2, 3), LOD 1, block size 16 with volume data and
a live buffer: origin (32, 64, 96), extent 32. -/
theorem C19_same_origin_and_extent_witness :
    Examples.gpu_task_suspended.lod_index < 32 ∧
    Examples.gpu_task_suspended.origin_in_voxels = ⟨32, 64, 96⟩ ∧
    Examples.gpu_task_suspended.origin_product = ⟨32, 64, 96⟩ ∧
    Examples.gpu_task_suspended.extent_product = ⟨32, 32, 32⟩ ∧
    (∃ (tc : GenerateBlockTask) (wc : World),
      Examples.gpu_task_suspended.run_cpu_generation
          (Examples.world Examples.volumes_ok [Examples.buffer] Examples.blocks_none) =
        .ok (tc, wc) ∧
      wc.generator_calls = [] ++
        [.generate_block 0 Examples.gpu_task_suspended.origin_product 1] ∧
      wc.modifier_calls = [] ++
        [.apply 0 ⟨to_vec3 Examples.gpu_task_suspended.origin_product,
          to_vec3 Examples.gpu_task_suspended.extent_product⟩]) ∧
    (∃ (tg : GenerateBlockTask) (cg : ThreadedTaskContext) (wg : World),
      Examples.gpu_task_suspended.run_gpu_task Examples.ctx
          (Examples.world Examples.volumes_ok [Examples.buffer] Examples.blocks_none) =
        .ok (tg, cg, wg) ∧
      wg.generator_calls = [] ++
        [.generate_broad_block 0 Examples.gpu_task_suspended.origin_product 1] ∧
      wg.modifier_calls = [] ++
        [.apply_for_gpu_rendering ⟨to_vec3 Examples.gpu_task_suspended.origin_product,
          to_vec3 Examples.gpu_task_suspended.extent_product⟩ .TYPE_BLOCK]) :=
  ⟨by decide, by decide, by decide, by decide,
   match (C19_same_origin_and_extent Examples.gpu_task_suspended Examples.ctx
      (Examples.world Examples.volumes_ok [Examples.buffer] Examples.blocks_none)
      Examples.generator 4 0 Examples.buffer (by decide) rfl rfl rfl rfl).2.2.1 with
   | ⟨tc, wc, hrun, hcalls, hmodifiers⟩ =>
     ⟨tc, wc, hrun, hcalls, hmodifiers Examples.volume_data rfl rfl⟩,
   match (C19_same_origin_and_extent Examples.gpu_task_suspended Examples.ctx
      (Examples.world Examples.volumes_ok [Examples.buffer] Examples.blocks_none)
      Examples.generator 4 0 Examples.buffer (by decide) rfl rfl rfl rfl).2.2.2 with
   | ⟨tg, cg, wg, hrun, hcalls, hsubmit⟩ =>
     ⟨tg, cg, wg, hrun, hcalls, (hsubmit rfl).2 Examples.volume_data rfl⟩⟩

end GenerateBlockTask

end zylann.voxel
